import Mathlib

/-!
# Scroll Turbo (`features/scroll_turbo.c`)

A shallow embedding of the Scroll Turbo feature of the Keychron K6 Pro keymap:
the turbo driver (`turbo_click_callback`, `turbo_click_start`,
`turbo_click_stop`, `scroll_turbo_disable`) and the gesture controller
(`process_scroll_turbo`).

The C file keeps its state in file-level and function-level statics; here they
are the fields of one record, `World`, which every function takes and returns.
The calls into the QMK core (`register_code16`, `unregister_code16`,
`defer_exec`, `cancel_deferred_exec`) are recorded, in the order they are made,
in the field `hostLog`.
-/

namespace ScrollTurbo

/-! ## Host interface -/

/-- The two keycodes the driver hands to `register_code16` / `unregister_code16`. -/
inductive ScrollKey where
  | KC_MS_WH_UP
  | KC_MS_WH_DOWN
  deriving DecidableEq

/-- One call from the feature into the QMK core. `defer_exec` carries the delay
it was given, `cancel_deferred_exec` the token it was given. -/
inductive HostCall where
  | register_code16 (k : ScrollKey)
  | unregister_code16 (k : ScrollKey)
  | defer_exec (delay_ms : Nat)
  | cancel_deferred_exec (token : Nat)
  deriving DecidableEq

/-- Modelled from the spec: the sentinel "none" value of a timer handle. The
header that defines `INVALID_DEFERRED_TOKEN` is not among the sources; QMK
defines it as 0. -/
def INVALID_DEFERRED_TOKEN : Nat := 0

/-- Modelled from the spec: "strictly before the pending deadline" on the
16-bit millisecond clock. The macro `timer_expired` is not among the
sources; QMK defines it as `((uint16_t)(current - future) < UINT16_MAX / 2)`:
the operands are promoted to `int`, subtracted, and the difference is reduced
modulo 2^16. -/
def timer_expired (current future : Nat) : Bool :=
  decide ((((current : Int) - (future : Int)) % 65536) < 32767)

/-- Compile-time constants. `MOUSE_TURBO_CLICK_PERIOD` is defined in the file,
with default 200, unless the build overrides it; `TAPPING_TERM` is the host
tap-window constant. Both are non-negative `int` constants. -/
structure Config where
  MOUSE_TURBO_CLICK_PERIOD : Nat := 200
  TAPPING_TERM : Nat := 200
  deriving DecidableEq

/-! ## State -/

/-- Enumerators of `wheel_status`. A C enum object can hold any integer, and
the `switch` of `turbo_click_callback` has a `default` arm for that, so the
field is a number. -/
def off : Nat := 0
/-- Enumerator `up = 1`. -/
def up : Nat := 1
/-- Enumerator `down = 2`. -/
def down : Nat := 2

/-- Key event of a key record: `pressed` and the 16-bit `time` stamp. -/
structure keyevent_t where
  pressed : Bool
  time : Nat
  deriving DecidableEq

/-- Record handed to `process_scroll_turbo`; only `record->event` is read. -/
structure keyrecord_t where
  event : keyevent_t
  deriving DecidableEq

/-- The statics of `scroll_turbo.c` (`click_token`, `click_registered`, and the
function statics `locked`, `tapped`, `tap_timer` of `process_scroll_turbo`),
together with the log of host calls made so far. -/
structure World where
  click_token : Nat
  click_registered : Nat
  locked : Bool
  tapped : Bool
  tap_timer : Nat
  hostLog : List HostCall
  deriving DecidableEq

/-- Initial values of the statics; no host call has been made. -/
def World.init : World :=
  { click_token := INVALID_DEFERRED_TOKEN
    click_registered := off
    locked := false
    tapped := false
    tap_timer := 0
    hostLog := [] }

/-- Append one host call to the log. -/
def World.call (w : World) (c : HostCall) : World :=
  { w with hostLog := w.hostLog ++ [c] }

/-! ## Turbo driver -/

/-- Embedding of `scroll_turbo_disable`: release both scroll keys, state `off`. -/
def scroll_turbo_disable (w : World) : World :=
  let w := w.call (.unregister_code16 .KC_MS_WH_UP)
  let w := w.call (.unregister_code16 .KC_MS_WH_DOWN)
  { w with click_registered := off }

/-- Embedding of `turbo_click_callback`. The arguments `trigger_time` and
`cb_arg` are not read by the C function; the first is kept, the pointer is
dropped. Returns the new state and the delay until the next invocation. -/
def turbo_click_callback (cfg : Config) (_trigger_time : Nat) (w : World) : World × Nat :=
  let w :=
    if w.click_registered = up then
      let w := w.call (.unregister_code16 .KC_MS_WH_UP)
      let w := w.call (.register_code16 .KC_MS_WH_DOWN)
      { w with click_registered := down }
    else if w.click_registered = down then
      let w := w.call (.unregister_code16 .KC_MS_WH_DOWN)
      { w with click_registered := off }
    else if w.click_registered = off then
      let w := w.call (.register_code16 .KC_MS_WH_UP)
      { w with click_registered := up }
    else
      scroll_turbo_disable w
  (w, cfg.MOUSE_TURBO_CLICK_PERIOD / 2)

/-- Embedding of `turbo_click_start`. `tok` is the token that the host
`defer_exec` returns if it is called. -/
def turbo_click_start (cfg : Config) (tok : Nat) (w : World) : World :=
  if w.click_token = INVALID_DEFERRED_TOKEN then
    let r := turbo_click_callback cfg 0 w
    let next_delay_ms := r.2
    let w := r.1.call (.defer_exec next_delay_ms)
    { w with click_token := tok }
  else w

/-- Embedding of `turbo_click_stop`. -/
def turbo_click_stop (w : World) : World :=
  if w.click_token ≠ INVALID_DEFERRED_TOKEN then
    let w := w.call (.cancel_deferred_exec w.click_token)
    let w := { w with click_token := INVALID_DEFERRED_TOKEN }
    if w.click_registered ≠ 0 then scroll_turbo_disable w else w
  else w

/-! ## Gesture controller -/

/-- Embedding of `process_scroll_turbo`. `tok` is the token that the host
`defer_exec` returns if this call reaches it. The lines after the
`if / else if` of the press branch (arming the tap window and starting the
driver) are run by the lock branch and by the plain branch; the unlock branch
returns before them. -/
def process_scroll_turbo (cfg : Config) (tok : Nat) (keycode : Nat) (record : keyrecord_t)
    (turbo_click_keycode : Nat) (w : World) : World × Bool :=
  if keycode = turbo_click_keycode then
    if record.event.pressed then
      if w.tapped && !timer_expired record.event.time w.tap_timer then
        let w := { w with locked := true }
        let w := { w with tapped := true
                          tap_timer := (record.event.time + cfg.TAPPING_TERM) % 65536 }
        (turbo_click_start cfg tok w, false)
      else if w.locked then
        let w := { w with locked := false, tapped := false }
        (turbo_click_stop w, false)
      else
        let w := { w with tapped := true
                          tap_timer := (record.event.time + cfg.TAPPING_TERM) % 65536 }
        (turbo_click_start cfg tok w, false)
    else if !w.locked then
      (turbo_click_stop w, false)
    else
      (w, false)
  else
    ({ w with tapped := false }, true)

/-! ## Runs of the machine -/

/-- One thing that can happen to the feature: the input dispatcher calls
`process_scroll_turbo`, or the deferred-execution scheduler fires
`turbo_click_callback`. -/
inductive Step where
  | key (keycode : Nat) (record : keyrecord_t) (turbo_click_keycode : Nat) (tok : Nat)
  | tick (trigger_time : Nat)
  deriving DecidableEq

/-- Assumptions on the host: `defer_exec` hands out a valid token, and the
scheduler fires the callback only while a token is registered. -/
def Step.admissible (w : World) : Step → Bool
  | .key _ _ _ tok => decide (tok ≠ INVALID_DEFERRED_TOKEN)
  | .tick _ => decide (w.click_token ≠ INVALID_DEFERRED_TOKEN)

/-- State after one step. -/
def Step.apply (cfg : Config) (w : World) : Step → World
  | .key keycode record turbo_click_keycode tok =>
      (process_scroll_turbo cfg tok keycode record turbo_click_keycode w).1
  | .tick trigger_time => (turbo_click_callback cfg trigger_time w).1

/-- Run a list of steps; `none` when a step breaks the host assumptions. -/
def run (cfg : Config) : World → List Step → Option World
  | w, [] => some w
  | w, s :: rest => if s.admissible w then run cfg (s.apply cfg w) rest else none

/-- Reachable from the initial state by key events and timer ticks. -/
def Reachable (cfg : Config) (w : World) : Prop :=
  ∃ steps : List Step, run cfg World.init steps = some w

/-- The callback fired `n` times in a row. -/
def ticks (cfg : Config) : Nat → World → World
  | 0, w => w
  | n + 1, w => ticks cfg n (turbo_click_callback cfg 0 w).1

/-- The callback fired `n` times in a row by the self-rescheduling scheduler:
the state reached and the sum of the delays the invocations returned. -/
def ticks_elapsed (cfg : Config) : Nat → World → World × Nat
  | 0, w => (w, 0)
  | n + 1, w =>
      let r := turbo_click_callback cfg 0 w
      let r2 := ticks_elapsed cfg n r.1
      (r2.1, r.2 + r2.2)

/-- Effect of one host call on whether the host holds key `k`:
`register_code16` of that key sets it, `unregister_code16` clears it. -/
def heldStep (k : ScrollKey) (held : Bool) : HostCall → Bool
  | .register_code16 k2 => if k2 = k then true else held
  | .unregister_code16 k2 => if k2 = k then false else held
  | _ => held

/-- Whether the host holds key `k` after the calls of `log`, starting from no
key held. -/
def hostHeld (k : ScrollKey) (log : List HostCall) : Bool :=
  log.foldl (heldStep k) false

/-- Press event of the given time stamp. -/
def press (t : Nat) : keyrecord_t := { event := { pressed := true, time := t } }

/-- Release event of the given time stamp. -/
def release (t : Nat) : keyrecord_t := { event := { pressed := false, time := t } }


/-! ## Concrete configurations and states used in the examples -/

/-- The default build: period 200 ms, tapping term 200 ms. -/
def defaultConfig : Config := {}

/-- State after a trigger press at time 10 (token 7) and two ticks: the timer
is registered and the cycle is in its `off` phase. -/
def idlePhaseRunning : World :=
  { click_token := 7
    click_registered := off
    locked := false
    tapped := true
    tap_timer := 210
    hostLog := [.register_code16 .KC_MS_WH_UP, .defer_exec 100,
      .unregister_code16 .KC_MS_WH_UP, .register_code16 .KC_MS_WH_DOWN,
      .unregister_code16 .KC_MS_WH_DOWN] }

/-- State after a trigger press at time 10 (token 7), one tick and the release
at time 20: the driver is stopped. -/
def stoppedAfterHold : World :=
  { click_token := INVALID_DEFERRED_TOKEN
    click_registered := off
    locked := false
    tapped := true
    tap_timer := 210
    hostLog := [.register_code16 .KC_MS_WH_UP, .defer_exec 100,
      .unregister_code16 .KC_MS_WH_UP, .register_code16 .KC_MS_WH_DOWN,
      .cancel_deferred_exec 7,
      .unregister_code16 .KC_MS_WH_UP, .unregister_code16 .KC_MS_WH_DOWN] }

/-- State after the double tap press 10, release 20, press 30 (tokens 7 and 8):
locked, with the tap window of the second press open until 230. -/
def lockedByDoubleTap : World :=
  { click_token := 8
    click_registered := up
    locked := true
    tapped := true
    tap_timer := 230
    hostLog := [.register_code16 .KC_MS_WH_UP, .defer_exec 100,
      .cancel_deferred_exec 7,
      .unregister_code16 .KC_MS_WH_UP, .unregister_code16 .KC_MS_WH_DOWN,
      .register_code16 .KC_MS_WH_UP, .defer_exec 100] }

/-- Effect of one host call on the number of callback registrations the
scheduler holds: `defer_exec` adds one, `cancel_deferred_exec` removes one. -/
def outstandingStep (n : Nat) : HostCall → Nat
  | .defer_exec _ => n + 1
  | .cancel_deferred_exec _ => n - 1
  | _ => n

/-- Number of callback registrations outstanding after the calls of `log`. -/
def outstanding (log : List HostCall) : Nat :=
  log.foldl outstandingStep 0

/-- The scheduler holds one registration while a token is held, none otherwise. -/
def OneRegistration (w : World) : Prop :=
  outstanding w.hostLog = if w.click_token = INVALID_DEFERRED_TOKEN then 0 else 1

/-- A state outside the three phases: `click_registered = 3`, with the timer
registered under token 7 and the up key held. -/
def faultyPhase : World :=
  { click_token := 7
    click_registered := 3
    locked := false
    tapped := true
    tap_timer := 210
    hostLog := [.register_code16 .KC_MS_WH_UP, .defer_exec 100] }

/-! ## Invariant -/

/-- The facts that hold of every reachable state. -/
structure Inv (w : World) : Prop where
  stopped_off : w.click_token = INVALID_DEFERRED_TOKEN → w.click_registered = off
  locked_running : w.locked = true → w.click_token ≠ INVALID_DEFERRED_TOKEN
  known_phase : w.click_registered ≤ 2
  held_up : hostHeld .KC_MS_WH_UP w.hostLog = decide (w.click_registered = up)
  held_down : hostHeld .KC_MS_WH_DOWN w.hostLog = decide (w.click_registered = down)

/-! ## Basic facts about the driver -/

theorem hostHeld_append (k : ScrollKey) (log rest : List HostCall) :
    hostHeld k (log ++ rest) = rest.foldl (heldStep k) (hostHeld k log) := by
  simp only [hostHeld, List.foldl_append]

theorem callback_delay (cfg : Config) (tt : Nat) (w : World) :
    (turbo_click_callback cfg tt w).2 = cfg.MOUSE_TURBO_CLICK_PERIOD / 2 := rfl

theorem callback_frame (cfg : Config) (tt : Nat) (w : World) :
    (turbo_click_callback cfg tt w).1.click_token = w.click_token ∧
    (turbo_click_callback cfg tt w).1.locked = w.locked ∧
    (turbo_click_callback cfg tt w).1.tapped = w.tapped ∧
    (turbo_click_callback cfg tt w).1.tap_timer = w.tap_timer := by
  unfold turbo_click_callback scroll_turbo_disable World.call
  refine ⟨?_, ?_, ?_, ?_⟩ <;> (dsimp only; split_ifs <;> rfl)

theorem inv_init : Inv World.init := by
  constructor <;> simp [World.init, INVALID_DEFERRED_TOKEN, off, up, down, hostHeld]

theorem phase_cases {w : World} (h : w.click_registered ≤ 2) :
    w.click_registered = 0 ∨ w.click_registered = 1 ∨ w.click_registered = 2 := by
  omega

/-- The part of the invariant a tick keeps whether or not a token is registered. -/
theorem callback_keys (cfg : Config) (tt : Nat) (w : World)
    (hp : w.click_registered ≤ 2)
    (hu : hostHeld .KC_MS_WH_UP w.hostLog = decide (w.click_registered = up))
    (hd : hostHeld .KC_MS_WH_DOWN w.hostLog = decide (w.click_registered = down)) :
    (turbo_click_callback cfg tt w).1.click_registered ≤ 2 ∧
    hostHeld .KC_MS_WH_UP (turbo_click_callback cfg tt w).1.hostLog
      = decide ((turbo_click_callback cfg tt w).1.click_registered = up) ∧
    hostHeld .KC_MS_WH_DOWN (turbo_click_callback cfg tt w).1.hostLog
      = decide ((turbo_click_callback cfg tt w).1.click_registered = down) := by
  rcases phase_cases hp with h | h | h <;>
    simp [turbo_click_callback, World.call, hostHeld_append, heldStep, h, up, down, off] at hu hd ⊢ <;>
    simp [hu, hd]

theorem inv_callback (cfg : Config) (tt : Nat) (w : World) (hi : Inv w)
    (ht : w.click_token ≠ INVALID_DEFERRED_TOKEN) : Inv (turbo_click_callback cfg tt w).1 := by
  obtain ⟨h1, h2, h3⟩ := callback_keys cfg tt w hi.known_phase hi.held_up hi.held_down
  obtain ⟨f1, f2, _, _⟩ := callback_frame cfg tt w
  exact ⟨fun h => absurd (f1 ▸ h) ht, fun h => f1 ▸ hi.locked_running (f2 ▸ h), h1, h2, h3⟩

/-- What `turbo_click_stop` leaves behind, from a state with the key facts of
the invariant: no token, no key held, state `off`; the gesture statics are
not touched. -/
theorem stop_effect (w : World)
    (hs : w.click_token = INVALID_DEFERRED_TOKEN → w.click_registered = off)
    (hu : hostHeld .KC_MS_WH_UP w.hostLog = decide (w.click_registered = up))
    (hd : hostHeld .KC_MS_WH_DOWN w.hostLog = decide (w.click_registered = down)) :
    (turbo_click_stop w).click_token = INVALID_DEFERRED_TOKEN ∧
    (turbo_click_stop w).click_registered = off ∧
    hostHeld .KC_MS_WH_UP (turbo_click_stop w).hostLog = false ∧
    hostHeld .KC_MS_WH_DOWN (turbo_click_stop w).hostLog = false ∧
    (turbo_click_stop w).locked = w.locked ∧
    (turbo_click_stop w).tapped = w.tapped ∧
    (turbo_click_stop w).tap_timer = w.tap_timer := by
  unfold turbo_click_stop
  by_cases ht : w.click_token = INVALID_DEFERRED_TOKEN
  · have h0 := hs ht
    simp [ht, h0, off, up, down] at hu hd ⊢
    exact ⟨hu, hd⟩
  · by_cases hr : w.click_registered = 0
    · simp [ht, hr, World.call, hostHeld_append, heldStep, off, up, down] at hu hd ⊢
      exact ⟨hu, hd⟩
    · simp [ht, hr, World.call, scroll_turbo_disable, hostHeld_append, heldStep, off]

theorem inv_stop (w : World) (hi : Inv w) (hl : w.locked = false) : Inv (turbo_click_stop w) := by
  obtain ⟨h1, h2, h3, h4, h5, _, _⟩ := stop_effect w hi.stopped_off hi.held_up hi.held_down
  refine ⟨fun _ => h2, fun h => ?_, by rw [h2]; simp [off], ?_, ?_⟩
  · rw [h5, hl] at h; cases h
  · rw [h3, h2]; simp [off, up]
  · rw [h4, h2]; simp [off, down]

theorem inv_start (cfg : Config) (tok : Nat) (w : World)
    (hp : w.click_registered ≤ 2)
    (hu : hostHeld .KC_MS_WH_UP w.hostLog = decide (w.click_registered = up))
    (hd : hostHeld .KC_MS_WH_DOWN w.hostLog = decide (w.click_registered = down))
    (htok : tok ≠ INVALID_DEFERRED_TOKEN) : Inv (turbo_click_start cfg tok w) := by
  unfold turbo_click_start
  by_cases ht : w.click_token = INVALID_DEFERRED_TOKEN
  · obtain ⟨h1, h2, h3⟩ := callback_keys cfg 0 w hp hu hd
    simp only [ht, if_true]
    refine ⟨fun h => absurd h htok, fun _ => htok, h1, ?_, ?_⟩
    · simpa [World.call, hostHeld_append, heldStep] using h2
    · simpa [World.call, hostHeld_append, heldStep] using h3
  · simp only [ht, if_false]
    exact ⟨fun h => absurd h ht, fun _ => ht, hp, hu, hd⟩

theorem inv_process (cfg : Config) (tok keycode : Nat) (record : keyrecord_t)
    (turbo_click_keycode : Nat) (w : World) (hi : Inv w)
    (htok : tok ≠ INVALID_DEFERRED_TOKEN) :
    Inv (process_scroll_turbo cfg tok keycode record turbo_click_keycode w).1 := by
  unfold process_scroll_turbo
  split_ifs with hk hp hlock hl hl2
  · exact inv_start cfg tok _ hi.known_phase hi.held_up hi.held_down htok
  · exact inv_stop _ ⟨hi.stopped_off, fun h => (by cases h), hi.known_phase, hi.held_up,
      hi.held_down⟩ rfl
  · exact inv_start cfg tok _ hi.known_phase hi.held_up hi.held_down htok
  · exact inv_stop w hi (by simpa using hl2)
  · exact hi
  · exact ⟨hi.stopped_off, hi.locked_running, hi.known_phase, hi.held_up, hi.held_down⟩

theorem inv_apply (cfg : Config) (w : World) (s : Step) (hi : Inv w)
    (ha : s.admissible w = true) : Inv (s.apply cfg w) := by
  cases s with
  | key keycode record turbo_click_keycode tok =>
      exact inv_process cfg tok keycode record turbo_click_keycode w hi
        (by simpa [Step.admissible] using ha)
  | tick tt =>
      exact inv_callback cfg tt w hi (by simpa [Step.admissible] using ha)

theorem inv_run (cfg : Config) (steps : List Step) :
    ∀ w w2 : World, Inv w → run cfg w steps = some w2 → Inv w2 := by
  induction steps with
  | nil =>
      intro w w2 hi h
      simp only [run, Option.some.injEq] at h
      exact h ▸ hi
  | cons s rest ih =>
      intro w w2 hi h
      simp only [run] at h
      split_ifs at h with ha
      exact ih _ _ (inv_apply cfg w s hi ha) h

theorem inv_reachable (cfg : Config) (w : World) (h : Reachable cfg w) : Inv w := by
  obtain ⟨steps, hs⟩ := h
  exact inv_run cfg steps _ _ inv_init hs


/-! ## Branches of `process_scroll_turbo` -/

theorem timer_expired_mod (current future : Nat) :
    timer_expired current (future % 65536) = timer_expired current future := by
  unfold timer_expired
  congr 1
  apply propext
  omega

theorem process_other (cfg : Config) (tok keycode : Nat) (record : keyrecord_t)
    (turbo_click_keycode : Nat) (w : World) (hk : keycode ≠ turbo_click_keycode) :
    process_scroll_turbo cfg tok keycode record turbo_click_keycode w
      = ({ w with tapped := false }, true) := by
  simp [process_scroll_turbo, hk]

theorem process_release_locked (cfg : Config) (tok k : Nat) (record : keyrecord_t) (w : World)
    (hp : record.event.pressed = false) (hl : w.locked = true) :
    process_scroll_turbo cfg tok k record k w = (w, false) := by
  simp [process_scroll_turbo, hp, hl]

theorem process_release_unlocked (cfg : Config) (tok k : Nat) (record : keyrecord_t) (w : World)
    (hp : record.event.pressed = false) (hl : w.locked = false) :
    process_scroll_turbo cfg tok k record k w = (turbo_click_stop w, false) := by
  simp [process_scroll_turbo, hp, hl]

theorem process_press_lock (cfg : Config) (tok k : Nat) (record : keyrecord_t) (w : World)
    (hp : record.event.pressed = true) (ht : w.tapped = true)
    (he : timer_expired record.event.time w.tap_timer = false) :
    process_scroll_turbo cfg tok k record k w
      = (turbo_click_start cfg tok
          { w with locked := true, tapped := true,
                   tap_timer := (record.event.time + cfg.TAPPING_TERM) % 65536 }, false) := by
  simp [process_scroll_turbo, hp, ht, he]

theorem process_press_unlock (cfg : Config) (tok k : Nat) (record : keyrecord_t) (w : World)
    (hp : record.event.pressed = true)
    (hw : w.tapped = false ∨ timer_expired record.event.time w.tap_timer = true)
    (hl : w.locked = true) :
    process_scroll_turbo cfg tok k record k w
      = (turbo_click_stop { w with locked := false, tapped := false }, false) := by
  rcases hw with hw | hw <;> simp [process_scroll_turbo, hp, hw, hl]

theorem process_press_first (cfg : Config) (tok k : Nat) (record : keyrecord_t) (w : World)
    (hp : record.event.pressed = true)
    (hw : w.tapped = false ∨ timer_expired record.event.time w.tap_timer = true)
    (hl : w.locked = false) :
    process_scroll_turbo cfg tok k record k w
      = (turbo_click_start cfg tok
          { w with tapped := true,
                   tap_timer := (record.event.time + cfg.TAPPING_TERM) % 65536 }, false) := by
  rcases hw with hw | hw <;> simp [process_scroll_turbo, hp, hw, hl]

/-! ## Start, stop and runs of ticks -/

theorem start_effect (cfg : Config) (tok : Nat) (w : World)
    (ht : w.click_token = INVALID_DEFERRED_TOKEN) :
    turbo_click_start cfg tok w =
      { (turbo_click_callback cfg 0 w).1 with
          click_token := tok
          hostLog := (turbo_click_callback cfg 0 w).1.hostLog
            ++ [.defer_exec (cfg.MOUSE_TURBO_CLICK_PERIOD / 2)] } := by
  simp [turbo_click_start, ht, World.call, callback_delay]

theorem start_running (cfg : Config) (tok : Nat) (w : World)
    (ht : w.click_token ≠ INVALID_DEFERRED_TOKEN) : turbo_click_start cfg tok w = w := by
  simp [turbo_click_start, ht]

theorem callback_off (cfg : Config) (tt : Nat) (w : World) (h : w.click_registered = off) :
    turbo_click_callback cfg tt w =
      ({ w with click_registered := up
                hostLog := w.hostLog ++ [.register_code16 .KC_MS_WH_UP] },
        cfg.MOUSE_TURBO_CLICK_PERIOD / 2) := by
  simp [turbo_click_callback, h, World.call, off, up, down]

theorem stop_log (w : World) (ht : w.click_token ≠ INVALID_DEFERRED_TOKEN) :
    ∃ rest, (turbo_click_stop w).hostLog
      = w.hostLog ++ HostCall.cancel_deferred_exec w.click_token :: rest := by
  unfold turbo_click_stop
  by_cases hr : w.click_registered = 0
  · exact ⟨[], by simp [ht, hr, World.call]⟩
  · exact ⟨[.unregister_code16 .KC_MS_WH_UP, .unregister_code16 .KC_MS_WH_DOWN],
      by simp [ht, hr, World.call, scroll_turbo_disable]⟩

theorem ticks_frame (cfg : Config) (n : Nat) :
    ∀ w : World, (ticks cfg n w).click_token = w.click_token ∧
      (ticks cfg n w).locked = w.locked ∧
      (ticks cfg n w).tapped = w.tapped ∧
      (ticks cfg n w).tap_timer = w.tap_timer := by
  induction n with
  | zero => intro w; exact ⟨rfl, rfl, rfl, rfl⟩
  | succ n ih =>
      intro w
      obtain ⟨a1, a2, a3, a4⟩ := ih (turbo_click_callback cfg 0 w).1
      obtain ⟨b1, b2, b3, b4⟩ := callback_frame cfg 0 w
      exact ⟨a1.trans b1, a2.trans b2, a3.trans b3, a4.trans b4⟩

theorem ticks_keys (cfg : Config) (n : Nat) :
    ∀ w : World, w.click_registered ≤ 2 →
      hostHeld .KC_MS_WH_UP w.hostLog = decide (w.click_registered = up) →
      hostHeld .KC_MS_WH_DOWN w.hostLog = decide (w.click_registered = down) →
      (ticks cfg n w).click_registered ≤ 2 ∧
      hostHeld .KC_MS_WH_UP (ticks cfg n w).hostLog
        = decide ((ticks cfg n w).click_registered = up) ∧
      hostHeld .KC_MS_WH_DOWN (ticks cfg n w).hostLog
        = decide ((ticks cfg n w).click_registered = down) := by
  induction n with
  | zero => intro w hp hu hd; exact ⟨hp, hu, hd⟩
  | succ n ih =>
      intro w hp hu hd
      obtain ⟨h1, h2, h3⟩ := callback_keys cfg 0 w hp hu hd
      exact ih _ h1 h2 h3


/-! ## Driver/state consistency -/

/-- C1 (as stated, refuted): after a trigger press and two ticks the timer is
still registered (`click_token = 7`) while `click_registered` is `off`, so
"`click_token` is invalid iff `click_registered` is `off`" fails in a reachable
state. -/
theorem token_invalid_iff_off_counterexample :
    run defaultConfig World.init [.key 5 (press 10) 5 7, .tick 0, .tick 0]
      = some idlePhaseRunning ∧
    Reachable defaultConfig idlePhaseRunning ∧
    ¬ (idlePhaseRunning.click_token = INVALID_DEFERRED_TOKEN
        ↔ idlePhaseRunning.click_registered = off) :=
  ⟨by decide, ⟨[.key 5 (press 10) 5 7, .tick 0, .tick 0], by decide⟩, by decide⟩

/-- C1 (amended): in every reachable state, if `click_token` is
`INVALID_DEFERRED_TOKEN` then `click_registered` is `off`. -/
theorem token_invalid_implies_off (cfg : Config) (w : World) (hr : Reachable cfg w)
    (ht : w.click_token = INVALID_DEFERRED_TOKEN) : w.click_registered = off :=
  (inv_reachable cfg w hr).stopped_off ht

/-- Witness for `token_invalid_implies_off`: the state after press, tick, release. -/
theorem token_invalid_implies_off_witness :
    Reachable defaultConfig stoppedAfterHold ∧
    stoppedAfterHold.click_token = INVALID_DEFERRED_TOKEN ∧
    stoppedAfterHold.click_registered = off :=
  ⟨⟨[.key 5 (press 10) 5 7, .tick 0, .key 5 (release 20) 5 7], by decide⟩, by decide,
    token_invalid_implies_off defaultConfig stoppedAfterHold
      ⟨[.key 5 (press 10) 5 7, .tick 0, .key 5 (release 20) 5 7], by decide⟩ (by decide)⟩

/-! ## Unlock -/

/-- C2 (as stated, refuted): in the locked state reached by the double tap
press 10, release 20, press 30, a further trigger press at time 50, before the
deadline 230 of the second tap, leaves `locked = true` and the timer
registered; it does not unlock. -/
theorem unlock_every_timestamp_counterexample :
    run defaultConfig World.init
      [.key 5 (press 10) 5 7, .key 5 (release 20) 5 7, .key 5 (press 30) 5 8]
      = some lockedByDoubleTap ∧
    lockedByDoubleTap.locked = true ∧
    (process_scroll_turbo defaultConfig 9 5 (press 50) 5 lockedByDoubleTap).1.locked = true ∧
    (process_scroll_turbo defaultConfig 9 5 (press 50) 5 lockedByDoubleTap).1.click_token
      ≠ INVALID_DEFERRED_TOKEN :=
  ⟨by decide, by decide, by decide, by decide⟩

/-- C2 (amended): for every reachable state with `locked = true`, a press of
the trigger key whose time stamp is not strictly before a pending deadline
(`tapped` is false, or `timer_expired(time, tap_timer)`) leaves
`locked = false` and `tapped = false`, stops the driver (`click_token` invalid,
`click_registered = off`) and returns false. -/
theorem unlock_press (cfg : Config) (tok k : Nat) (record : keyrecord_t) (w : World)
    (hr : Reachable cfg w) (hl : w.locked = true) (hp : record.event.pressed = true)
    (hw : w.tapped = false ∨ timer_expired record.event.time w.tap_timer = true) :
    (process_scroll_turbo cfg tok k record k w).1.locked = false ∧
    (process_scroll_turbo cfg tok k record k w).1.tapped = false ∧
    (process_scroll_turbo cfg tok k record k w).1.click_token = INVALID_DEFERRED_TOKEN ∧
    (process_scroll_turbo cfg tok k record k w).1.click_registered = off ∧
    (process_scroll_turbo cfg tok k record k w).2 = false := by
  have hi := inv_reachable cfg w hr
  rw [process_press_unlock cfg tok k record w hp hw hl]
  obtain ⟨h1, h2, _, _, h5, h6, _⟩ :=
    stop_effect { w with locked := false, tapped := false } hi.stopped_off hi.held_up hi.held_down
  exact ⟨h5, h6, h1, h2, rfl⟩

/-- Witness for `unlock_press`: the locked state of the double tap, pressed
again at time 500, after the deadline 230. -/
theorem unlock_press_witness :
    Reachable defaultConfig lockedByDoubleTap ∧
    lockedByDoubleTap.locked = true ∧
    (press 500).event.pressed = true ∧
    (lockedByDoubleTap.tapped = false ∨ timer_expired (press 500).event.time
      lockedByDoubleTap.tap_timer = true) ∧
    (process_scroll_turbo defaultConfig 9 5 (press 500) 5 lockedByDoubleTap).1.locked = false ∧
    (process_scroll_turbo defaultConfig 9 5 (press 500) 5 lockedByDoubleTap).1.tapped = false ∧
    (process_scroll_turbo defaultConfig 9 5 (press 500) 5 lockedByDoubleTap).1.click_token
      = INVALID_DEFERRED_TOKEN ∧
    (process_scroll_turbo defaultConfig 9 5 (press 500) 5 lockedByDoubleTap).1.click_registered
      = off ∧
    (process_scroll_turbo defaultConfig 9 5 (press 500) 5 lockedByDoubleTap).2 = false :=
  ⟨⟨[.key 5 (press 10) 5 7, .key 5 (release 20) 5 7, .key 5 (press 30) 5 8], by decide⟩,
    by decide, by decide, by decide,
    unlock_press defaultConfig 9 5 (press 500) lockedByDoubleTap
      ⟨[.key 5 (press 10) 5 7, .key 5 (release 20) 5 7, .key 5 (press 30) 5 8], by decide⟩
      (by decide) (by decide) (by decide)⟩


/-! ## Double tap and hold -/

/-- State of the driver right after a first trigger press from a stopped,
unlocked state with no tap pending. -/
theorem first_press_effect (cfg : Config) (tok k : Nat) (record : keyrecord_t) (w : World)
    (hp : record.event.pressed = true) (hl : w.locked = false) (ht : w.tapped = false)
    (hc : w.click_token = INVALID_DEFERRED_TOKEN) (ho : w.click_registered = off) :
    process_scroll_turbo cfg tok k record k w =
      ({ click_token := tok
         click_registered := up
         locked := false
         tapped := true
         tap_timer := (record.event.time + cfg.TAPPING_TERM) % 65536
         hostLog := w.hostLog ++ [.register_code16 .KC_MS_WH_UP,
           .defer_exec (cfg.MOUSE_TURBO_CLICK_PERIOD / 2)] }, false) := by
  simp [process_scroll_turbo, hp, hl, ht, turbo_click_start, hc, turbo_click_callback, ho,
    World.call, off, up, down, INVALID_DEFERRED_TOKEN]

/-- State of the driver right after a trigger press that falls in a pending tap
window, from a stopped driver. -/
theorem lock_press_effect (cfg : Config) (tok k : Nat) (record : keyrecord_t) (w : World)
    (hp : record.event.pressed = true) (ht : w.tapped = true)
    (he : timer_expired record.event.time w.tap_timer = false)
    (hc : w.click_token = INVALID_DEFERRED_TOKEN) (ho : w.click_registered = off) :
    process_scroll_turbo cfg tok k record k w =
      ({ click_token := tok
         click_registered := up
         locked := true
         tapped := true
         tap_timer := (record.event.time + cfg.TAPPING_TERM) % 65536
         hostLog := w.hostLog ++ [.register_code16 .KC_MS_WH_UP,
           .defer_exec (cfg.MOUSE_TURBO_CLICK_PERIOD / 2)] }, false) := by
  simp [process_scroll_turbo, hp, ht, he, turbo_click_start, hc, turbo_click_callback, ho,
    World.call, off, up, down, INVALID_DEFERRED_TOKEN]

/-- C3: from the initial state, trigger press at `t0`, `n1` ticks, trigger
release at `t1`, trigger press at `t2` with `timer_expired(t2, t0 + TAPPING_TERM)`
false, `n2` ticks, trigger release at `t3`, the host handing out valid tokens
`tok1` and `tok2`: the release stops the driver, the second press restarts it
and sets `locked`, and the last release leaves it locked and running. -/
theorem double_tap_locks (cfg : Config) (k tok1 tok2 tokr tokr2 t0 t1 t2 t3 n1 n2 : Nat)
    (h1 : tok1 ≠ INVALID_DEFERRED_TOKEN) (h2 : tok2 ≠ INVALID_DEFERRED_TOKEN)
    (hw : timer_expired t2 (t0 + cfg.TAPPING_TERM) = false) :
    let w1 := ticks cfg n1 (process_scroll_turbo cfg tok1 k (press t0) k World.init).1
    let w2 := (process_scroll_turbo cfg tokr k (release t1) k w1).1
    let w3 := (process_scroll_turbo cfg tok2 k (press t2) k w2).1
    let w4 := (process_scroll_turbo cfg tokr2 k (release t3) k (ticks cfg n2 w3)).1
    w1.click_token = tok1 ∧
    w2.click_token = INVALID_DEFERRED_TOKEN ∧ w2.click_registered = off ∧ w2.locked = false ∧
    HostCall.cancel_deferred_exec tok1 ∈ w2.hostLog ∧
    w3.locked = true ∧ w3.click_token = tok2 ∧ w3.click_token ≠ INVALID_DEFERRED_TOKEN ∧
    w3.click_registered = up ∧
    w3.hostLog = w2.hostLog ++ [.register_code16 .KC_MS_WH_UP,
      .defer_exec (cfg.MOUSE_TURBO_CLICK_PERIOD / 2)] ∧
    w4.locked = true ∧ w4.click_token = tok2 ∧ w4 = ticks cfg n2 w3 := by
  intro w1 w2 w3 w4
  have e0 := congrArg Prod.fst
    (first_press_effect cfg tok1 k (press t0) World.init rfl rfl rfl rfl rfl)
  -- after the first press and `n1` ticks
  obtain ⟨a1, a2, a3, a4⟩ := ticks_frame cfg n1
    (process_scroll_turbo cfg tok1 k (press t0) k World.init).1
  obtain ⟨_, k2, k3⟩ := ticks_keys cfg n1
    (process_scroll_turbo cfg tok1 k (press t0) k World.init).1
    (by rw [e0]; simp [up])
    (by rw [e0]; simp [World.init, hostHeld, heldStep])
    (by rw [e0]; simp [World.init, hostHeld, heldStep, up, down])
  have c1 : w1.click_token = tok1 := a1.trans (by rw [e0])
  have l1 : w1.locked = false := a2.trans (by rw [e0])
  have p1 : w1.tapped = true := a3.trans (by rw [e0])
  have d1 : w1.tap_timer = (t0 + cfg.TAPPING_TERM) % 65536 := a4.trans (by rw [e0]; rfl)
  -- the release stops the driver
  have e2 : w2 = turbo_click_stop w1 := by
    show (process_scroll_turbo cfg tokr k (release t1) k w1).1 = _
    rw [process_release_unlocked cfg tokr k (release t1) w1 rfl l1]
  obtain ⟨s1, s2, _, _, s5, s6, s7⟩ := stop_effect w1 (fun h => absurd (c1 ▸ h) h1) k2 k3
  obtain ⟨rest, hlog⟩ := stop_log w1 (by rw [c1]; exact h1)
  rw [← e2] at s1 s2 s5 s6 s7 hlog
  -- the second press falls in the window
  have he : timer_expired (press t2).event.time w2.tap_timer = false := by
    rw [s7, d1, timer_expired_mod]; exact hw
  have e3 : w3 = _ := congrArg Prod.fst
    (lock_press_effect cfg tok2 k (press t2) w2 rfl (by rw [s6, p1]) he s1 s2)
  have l3 : w3.locked = true := by rw [e3]
  have c3 : w3.click_token = tok2 := by rw [e3]
  -- the last release changes nothing
  obtain ⟨b1, b2, _, _⟩ := ticks_frame cfg n2 w3
  have e4 : w4 = ticks cfg n2 w3 := by
    show (process_scroll_turbo cfg tokr2 k (release t3) k (ticks cfg n2 w3)).1 = _
    rw [process_release_locked cfg tokr2 k (release t3) _ rfl (by rw [b2, l3])]
  refine ⟨c1, s1, s2, by rw [s5, l1], ?_, l3, c3, by rw [c3]; exact h2, by rw [e3], by rw [e3],
    ?_, ?_, e4⟩
  · rw [hlog, c1]; simp
  · rw [e4, b2, l3]
  · rw [e4, b1, c3]


/-- Witness for `double_tap_locks`: default build, taps at 10 and 30, tokens 7
and 8, two ticks during the first hold and one after the lock. -/
theorem double_tap_locks_witness :
    (7 : Nat) ≠ INVALID_DEFERRED_TOKEN ∧ (8 : Nat) ≠ INVALID_DEFERRED_TOKEN ∧
    timer_expired 30 (10 + defaultConfig.TAPPING_TERM) = false ∧
    (let w1 := ticks defaultConfig 2
        (process_scroll_turbo defaultConfig 7 5 (press 10) 5 World.init).1
     let w2 := (process_scroll_turbo defaultConfig 0 5 (release 20) 5 w1).1
     let w3 := (process_scroll_turbo defaultConfig 8 5 (press 30) 5 w2).1
     let w4 := (process_scroll_turbo defaultConfig 0 5 (release 40) 5
        (ticks defaultConfig 1 w3)).1
     w1.click_token = 7 ∧
     w2.click_token = INVALID_DEFERRED_TOKEN ∧ w2.click_registered = off ∧ w2.locked = false ∧
     HostCall.cancel_deferred_exec 7 ∈ w2.hostLog ∧
     w3.locked = true ∧ w3.click_token = 8 ∧ w3.click_token ≠ INVALID_DEFERRED_TOKEN ∧
     w3.click_registered = up ∧
     w3.hostLog = w2.hostLog ++ [.register_code16 .KC_MS_WH_UP,
       .defer_exec (defaultConfig.MOUSE_TURBO_CLICK_PERIOD / 2)] ∧
     w4.locked = true ∧ w4.click_token = 8 ∧ w4 = ticks defaultConfig 1 w3) :=
  ⟨by decide, by decide, by decide,
    double_tap_locks defaultConfig 5 7 8 0 0 10 20 30 40 2 1 (by decide) (by decide) (by decide)⟩

/-- C4: from every reachable state with `locked = false`, the driver stopped
and no tap pending (the initial state is one), a trigger press returns false,
emits exactly `register_code16(KC_MS_WH_UP)` followed by
`defer_exec(MOUSE_TURBO_CLICK_PERIOD / 2)`, leaves `click_registered = up`,
the token registered and `locked = false`; after `n` ticks the trigger release
returns false, cancels that token, and leaves `click_token` invalid,
`click_registered = off`, neither scroll key held by the host, and
`locked = false`. -/
theorem hold_starts_and_stops (cfg : Config) (k tok tokr t0 t1 n : Nat) (w : World)
    (hr : Reachable cfg w) (hl : w.locked = false)
    (hc : w.click_token = INVALID_DEFERRED_TOKEN) (ht : w.tapped = false)
    (htok : tok ≠ INVALID_DEFERRED_TOKEN) :
    let p := process_scroll_turbo cfg tok k (press t0) k w
    let q := process_scroll_turbo cfg tokr k (release t1) k (ticks cfg n p.1)
    p.2 = false ∧
    p.1.hostLog = w.hostLog ++ [.register_code16 .KC_MS_WH_UP,
      .defer_exec (cfg.MOUSE_TURBO_CLICK_PERIOD / 2)] ∧
    p.1.click_registered = up ∧ p.1.click_token = tok ∧ p.1.locked = false ∧
    q.2 = false ∧
    (∃ rest, q.1.hostLog
      = (ticks cfg n p.1).hostLog ++ HostCall.cancel_deferred_exec tok :: rest) ∧
    q.1.click_token = INVALID_DEFERRED_TOKEN ∧ q.1.click_registered = off ∧
    hostHeld .KC_MS_WH_UP q.1.hostLog = false ∧
    hostHeld .KC_MS_WH_DOWN q.1.hostLog = false ∧
    q.1.locked = false := by
  intro p q
  have hi := inv_reachable cfg w hr
  have ho := hi.stopped_off hc
  have hu := hi.held_up
  have hd := hi.held_down
  have e0 : p = _ := first_press_effect cfg tok k (press t0) w rfl hl ht hc ho
  obtain ⟨a1, a2, _, _⟩ := ticks_frame cfg n p.1
  obtain ⟨_, k2, k3⟩ := ticks_keys cfg n p.1
    (by rw [e0]; simp [up])
    (by rw [e0]; simp [hostHeld_append, heldStep, up])
    (by rw [e0]; simp [hostHeld_append, heldStep, up, down, hd, ho, off])
  have c1 : (ticks cfg n p.1).click_token = tok := a1.trans (by rw [e0])
  have l1 : (ticks cfg n p.1).locked = false := a2.trans (by rw [e0])
  have e2 : q = (turbo_click_stop (ticks cfg n p.1), false) :=
    process_release_unlocked cfg tokr k (release t1) _ rfl l1
  obtain ⟨s1, s2, s3, s4, s5, _, _⟩ :=
    stop_effect (ticks cfg n p.1) (fun h => absurd (c1 ▸ h) htok) k2 k3
  obtain ⟨rest, hlog⟩ := stop_log (ticks cfg n p.1) (by rw [c1]; exact htok)
  rw [c1] at hlog
  refine ⟨by rw [e0], by rw [e0], by rw [e0], by rw [e0], by rw [e0], by rw [e2],
    ⟨rest, by rw [e2]; exact hlog⟩, by rw [e2]; exact s1, by rw [e2]; exact s2,
    by rw [e2]; exact s3, by rw [e2]; exact s4, by rw [e2]; exact s5.trans l1⟩

/-- Witness for `hold_starts_and_stops`: the initial state, default build,
press at 10 with token 7, three ticks, release at 20. -/
theorem hold_starts_and_stops_witness :
    Reachable defaultConfig World.init ∧ World.init.locked = false ∧
    World.init.click_token = INVALID_DEFERRED_TOKEN ∧ World.init.tapped = false ∧
    (7 : Nat) ≠ INVALID_DEFERRED_TOKEN ∧
    (let p := process_scroll_turbo defaultConfig 7 5 (press 10) 5 World.init
     let q := process_scroll_turbo defaultConfig 0 5 (release 20) 5 (ticks defaultConfig 3 p.1)
     p.2 = false ∧
     p.1.hostLog = World.init.hostLog ++ [.register_code16 .KC_MS_WH_UP,
       .defer_exec (defaultConfig.MOUSE_TURBO_CLICK_PERIOD / 2)] ∧
     p.1.click_registered = up ∧ p.1.click_token = 7 ∧ p.1.locked = false ∧
     q.2 = false ∧
     (∃ rest, q.1.hostLog
       = (ticks defaultConfig 3 p.1).hostLog ++ HostCall.cancel_deferred_exec 7 :: rest) ∧
     q.1.click_token = INVALID_DEFERRED_TOKEN ∧ q.1.click_registered = off ∧
     hostHeld .KC_MS_WH_UP q.1.hostLog = false ∧
     hostHeld .KC_MS_WH_DOWN q.1.hostLog = false ∧
     q.1.locked = false) :=
  ⟨⟨[], rfl⟩, rfl, rfl, rfl, by decide,
    hold_starts_and_stops defaultConfig 5 7 0 10 20 3 World.init ⟨[], rfl⟩ rfl rfl rfl
      (by decide)⟩

/-! ## Propagate / consume -/

/-- C5: `process_scroll_turbo` returns true exactly when the keycode is not the
trigger keycode; every event on the trigger key returns false. -/
theorem returns_true_iff_other_key (cfg : Config) (tok keycode : Nat) (record : keyrecord_t)
    (turbo_click_keycode : Nat) (w : World) :
    ((process_scroll_turbo cfg tok keycode record turbo_click_keycode w).2 = true
      ↔ keycode ≠ turbo_click_keycode) ∧
    (process_scroll_turbo cfg tok turbo_click_keycode record turbo_click_keycode w).2 = false := by
  constructor
  · unfold process_scroll_turbo
    split_ifs <;> simp_all
  · unfold process_scroll_turbo
    split_ifs <;> simp_all


/-! ## An intervening key -/

/-- C6: from the initial state, trigger press at `t0`, `n1` ticks, trigger
release, any event on another key, trigger press at `t2` (any `t2`, also
inside the window of the first tap): the last press does not lock; it is a
fresh first tap (`tapped`, deadline `t2 + TAPPING_TERM`, driver started). -/
theorem other_key_breaks_double_tap (cfg : Config)
    (k k2 tok1 tokr toko tok2 t0 t1 t2 n1 : Nat) (other : keyrecord_t)
    (hk : k2 ≠ k) (h1 : tok1 ≠ INVALID_DEFERRED_TOKEN) (h2 : tok2 ≠ INVALID_DEFERRED_TOKEN) :
    let w1 := ticks cfg n1 (process_scroll_turbo cfg tok1 k (press t0) k World.init).1
    let w2 := (process_scroll_turbo cfg tokr k (release t1) k w1).1
    let w3 := (process_scroll_turbo cfg toko k2 other k w2).1
    let r := process_scroll_turbo cfg tok2 k (press t2) k w3
    r.1.locked = false ∧ r.1.tapped = true ∧
    r.1.tap_timer = (t2 + cfg.TAPPING_TERM) % 65536 ∧
    r.1.click_token = tok2 ∧ r.1.click_token ≠ INVALID_DEFERRED_TOKEN ∧
    r.1.click_registered = up ∧
    r.1.hostLog = w3.hostLog ++ [.register_code16 .KC_MS_WH_UP,
      .defer_exec (cfg.MOUSE_TURBO_CLICK_PERIOD / 2)] ∧
    r.2 = false := by
  intro w1 w2 w3 r
  have e0 := congrArg Prod.fst
    (first_press_effect cfg tok1 k (press t0) World.init rfl rfl rfl rfl rfl)
  obtain ⟨a1, a2, _, _⟩ := ticks_frame cfg n1
    (process_scroll_turbo cfg tok1 k (press t0) k World.init).1
  obtain ⟨_, g2, g3⟩ := ticks_keys cfg n1
    (process_scroll_turbo cfg tok1 k (press t0) k World.init).1
    (by rw [e0]; simp [up])
    (by rw [e0]; simp [World.init, hostHeld, heldStep])
    (by rw [e0]; simp [World.init, hostHeld, heldStep, up, down])
  have c1 : w1.click_token = tok1 := a1.trans (by rw [e0])
  have l1 : w1.locked = false := a2.trans (by rw [e0])
  have e2 : w2 = turbo_click_stop w1 := by
    show (process_scroll_turbo cfg tokr k (release t1) k w1).1 = _
    rw [process_release_unlocked cfg tokr k (release t1) w1 rfl l1]
  obtain ⟨s1, s2, _, _, s5, _, _⟩ := stop_effect w1 (fun h => absurd (c1 ▸ h) h1) g2 g3
  rw [← e2] at s1 s2 s5
  have e3 : w3 = { w2 with tapped := false } := by
    show (process_scroll_turbo cfg toko k2 other k w2).1 = _
    rw [process_other cfg toko k2 other k w2 hk]
  have e4 : r = _ := first_press_effect cfg tok2 k (press t2) w3 rfl
    (by rw [e3]; exact s5.trans l1) (by rw [e3]) (by rw [e3]; exact s1) (by rw [e3]; exact s2)
  rw [e4]
  exact ⟨rfl, rfl, rfl, rfl, h2, rfl, rfl, rfl⟩

/-- Witness for `other_key_breaks_double_tap`: taps at 10 and 30, inside the
window that the first tap opened until 210, with a press of key 6 in between. -/
theorem other_key_breaks_double_tap_witness :
    (6 : Nat) ≠ 5 ∧ (7 : Nat) ≠ INVALID_DEFERRED_TOKEN ∧
    (8 : Nat) ≠ INVALID_DEFERRED_TOKEN ∧
    timer_expired 30 (10 + defaultConfig.TAPPING_TERM) = false ∧
    (let w1 := ticks defaultConfig 1
        (process_scroll_turbo defaultConfig 7 5 (press 10) 5 World.init).1
     let w2 := (process_scroll_turbo defaultConfig 0 5 (release 20) 5 w1).1
     let w3 := (process_scroll_turbo defaultConfig 0 6 (press 25) 5 w2).1
     let r := process_scroll_turbo defaultConfig 8 5 (press 30) 5 w3
     r.1.locked = false ∧ r.1.tapped = true ∧
     r.1.tap_timer = (30 + defaultConfig.TAPPING_TERM) % 65536 ∧
     r.1.click_token = 8 ∧ r.1.click_token ≠ INVALID_DEFERRED_TOKEN ∧
     r.1.click_registered = up ∧
     r.1.hostLog = w3.hostLog ++ [.register_code16 .KC_MS_WH_UP,
       .defer_exec (defaultConfig.MOUSE_TURBO_CLICK_PERIOD / 2)] ∧
     r.2 = false) :=
  ⟨by decide, by decide, by decide, by decide,
    other_key_breaks_double_tap defaultConfig 5 6 7 0 0 8 10 20 30 1 (press 25)
      (by decide) (by decide) (by decide)⟩

/-! ## Release while locked -/

/-- C7: with `locked = true`, a release of the trigger key returns false and
leaves the whole state, host log included, as it was. -/
theorem release_while_locked_noop (cfg : Config) (tok k : Nat) (record : keyrecord_t)
    (w : World) (hp : record.event.pressed = false) (hl : w.locked = true) :
    process_scroll_turbo cfg tok k record k w = (w, false) :=
  process_release_locked cfg tok k record w hp hl

/-- Witness for `release_while_locked_noop`: the locked state of the double
tap, released at time 40. -/
theorem release_while_locked_noop_witness :
    (release 40).event.pressed = false ∧ lockedByDoubleTap.locked = true ∧
    process_scroll_turbo defaultConfig 9 5 (release 40) 5 lockedByDoubleTap
      = (lockedByDoubleTap, false) :=
  ⟨rfl, rfl,
    release_while_locked_noop defaultConfig 9 5 (release 40) lockedByDoubleTap rfl rfl⟩

/-! ## The tick cycle -/

/-- C8: a tick maps `off` to `up` emitting `register(KC_MS_WH_UP)`, `up` to
`down` emitting `unregister(KC_MS_WH_UP)` then `register(KC_MS_WH_DOWN)`, and
`down` to `off` emitting `unregister(KC_MS_WH_DOWN)`; three ticks from each of
the three states come back to it; every tick returns
`MOUSE_TURBO_CLICK_PERIOD / 2`, which is 100 in the default build, and leaves
`click_token`, `locked`, `tapped` and `tap_timer` as they were. -/
theorem tick_cycle (cfg : Config) (tt : Nat) (w : World) :
    turbo_click_callback cfg tt { w with click_registered := off }
      = ({ w with click_registered := up
                  hostLog := w.hostLog ++ [.register_code16 .KC_MS_WH_UP] },
          cfg.MOUSE_TURBO_CLICK_PERIOD / 2) ∧
    turbo_click_callback cfg tt { w with click_registered := up }
      = ({ w with click_registered := down
                  hostLog := w.hostLog ++ [.unregister_code16 .KC_MS_WH_UP,
                    .register_code16 .KC_MS_WH_DOWN] },
          cfg.MOUSE_TURBO_CLICK_PERIOD / 2) ∧
    turbo_click_callback cfg tt { w with click_registered := down }
      = ({ w with click_registered := off
                  hostLog := w.hostLog ++ [.unregister_code16 .KC_MS_WH_DOWN] },
          cfg.MOUSE_TURBO_CLICK_PERIOD / 2) ∧
    (ticks cfg 3 { w with click_registered := off }).click_registered = off ∧
    (ticks cfg 3 { w with click_registered := up }).click_registered = up ∧
    (ticks cfg 3 { w with click_registered := down }).click_registered = down ∧
    (turbo_click_callback cfg tt w).2 = cfg.MOUSE_TURBO_CLICK_PERIOD / 2 ∧
    (turbo_click_callback defaultConfig tt w).2 = 100 ∧
    (turbo_click_callback cfg tt w).1.click_token = w.click_token ∧
    (turbo_click_callback cfg tt w).1.locked = w.locked ∧
    (turbo_click_callback cfg tt w).1.tapped = w.tapped ∧
    (turbo_click_callback cfg tt w).1.tap_timer = w.tap_timer := by
  refine ⟨?_, ?_, ?_, ?_, ?_, ?_, rfl, rfl, callback_frame cfg tt w⟩ <;>
    simp [ticks, turbo_click_callback, World.call, off, up, down]

/-- C9 (the code at the default period): started from `off`, the three ticks
of one pass of the cycle return delays that sum to 300, not to the period 200;
the pass ends in `off`, and it is the fourth tick that registers
`KC_MS_WH_UP` again. For every period the three delays sum to three half
periods. -/
theorem cycle_duration_three_half_periods :
    defaultConfig.MOUSE_TURBO_CLICK_PERIOD = 200 ∧
    ticks_elapsed defaultConfig 3 World.init
      = ({ World.init with
            hostLog := [.register_code16 .KC_MS_WH_UP, .unregister_code16 .KC_MS_WH_UP,
              .register_code16 .KC_MS_WH_DOWN, .unregister_code16 .KC_MS_WH_DOWN] }, 300) ∧
    (turbo_click_callback defaultConfig 0 (ticks_elapsed defaultConfig 3 World.init).1).1.hostLog
      = [.register_code16 .KC_MS_WH_UP, .unregister_code16 .KC_MS_WH_UP,
          .register_code16 .KC_MS_WH_DOWN, .unregister_code16 .KC_MS_WH_DOWN,
          .register_code16 .KC_MS_WH_UP] ∧
    (ticks_elapsed defaultConfig 3 World.init).2 ≠ defaultConfig.MOUSE_TURBO_CLICK_PERIOD ∧
    ∀ (cfg : Config) (w : World),
      (ticks_elapsed cfg 3 w).2 = 3 * (cfg.MOUSE_TURBO_CLICK_PERIOD / 2) := by
  refine ⟨rfl, by decide, by decide, by decide, ?_⟩
  intro cfg w
  simp only [ticks_elapsed, callback_delay]
  omega

/-! ## Lock implies an active driver -/

/-- C10: in every reachable state, `locked = true` implies that `click_token`
is not `INVALID_DEFERRED_TOKEN`. -/
theorem locked_implies_token_valid (cfg : Config) (w : World) (hr : Reachable cfg w)
    (hl : w.locked = true) : w.click_token ≠ INVALID_DEFERRED_TOKEN :=
  (inv_reachable cfg w hr).locked_running hl

/-- Witness for `locked_implies_token_valid`: the locked state of the double tap. -/
theorem locked_implies_token_valid_witness :
    Reachable defaultConfig lockedByDoubleTap ∧ lockedByDoubleTap.locked = true ∧
    lockedByDoubleTap.click_token ≠ INVALID_DEFERRED_TOKEN :=
  ⟨⟨[.key 5 (press 10) 5 7, .key 5 (release 20) 5 7, .key 5 (press 30) 5 8], by decide⟩, rfl,
    locked_implies_token_valid defaultConfig lockedByDoubleTap
      ⟨[.key 5 (press 10) 5 7, .key 5 (release 20) 5 7, .key 5 (press 30) 5 8], by decide⟩ rfl⟩


/-! ## Frames of start and stop, and the state after one tap -/

theorem stop_frame (w : World) :
    (turbo_click_stop w).locked = w.locked ∧
    (turbo_click_stop w).tapped = w.tapped ∧
    (turbo_click_stop w).tap_timer = w.tap_timer := by
  unfold turbo_click_stop scroll_turbo_disable World.call
  refine ⟨?_, ?_, ?_⟩ <;> (dsimp only; split_ifs <;> rfl)

theorem start_frame (cfg : Config) (tok : Nat) (w : World) :
    (turbo_click_start cfg tok w).locked = w.locked ∧
    (turbo_click_start cfg tok w).tapped = w.tapped ∧
    (turbo_click_start cfg tok w).tap_timer = w.tap_timer := by
  obtain ⟨_, f2, f3, f4⟩ := callback_frame cfg 0 w
  unfold turbo_click_start World.call
  refine ⟨?_, ?_, ?_⟩ <;> (dsimp only; split_ifs <;> first | rfl | assumption)

/-- The gesture statics after a trigger press on a state, some ticks and the
trigger release, in terms of the state right after the press. -/
theorem release_after_ticks_frame (cfg : Config) (tokr k t1 n : Nat) (w1 : World)
    (hl : w1.locked = false) :
    (process_scroll_turbo cfg tokr k (release t1) k (ticks cfg n w1)).1.locked = false ∧
    (process_scroll_turbo cfg tokr k (release t1) k (ticks cfg n w1)).1.tapped = w1.tapped ∧
    (process_scroll_turbo cfg tokr k (release t1) k (ticks cfg n w1)).1.tap_timer
      = w1.tap_timer := by
  obtain ⟨_, a2, a3, a4⟩ := ticks_frame cfg n w1
  obtain ⟨s1, s2, s3⟩ := stop_frame (ticks cfg n w1)
  rw [process_release_unlocked cfg tokr k (release t1) _ rfl (a2.trans hl)]
  exact ⟨s1.trans (a2.trans hl), s2.trans a3, s3.trans a4⟩

/-- The gesture statics after the first tap from the initial state: trigger
press at `t0`, `n` ticks, trigger release. -/
theorem after_first_tap (cfg : Config) (tok1 tokr k t0 t1 n : Nat) :
    let w2 := (process_scroll_turbo cfg tokr k (release t1) k
      (ticks cfg n (process_scroll_turbo cfg tok1 k (press t0) k World.init).1)).1
    w2.locked = false ∧ w2.tapped = true ∧
    w2.tap_timer = (t0 + cfg.TAPPING_TERM) % 65536 := by
  intro w2
  have e0 := congrArg Prod.fst
    (process_press_first cfg tok1 k (press t0) World.init rfl (Or.inl rfl) rfl)
  obtain ⟨f1, f2, f3⟩ := start_frame cfg tok1
    { World.init with tapped := true
                      tap_timer := ((press t0).event.time + cfg.TAPPING_TERM) % 65536 }
  obtain ⟨r1, r2, r3⟩ := release_after_ticks_frame cfg tokr k t1 n
    (process_scroll_turbo cfg tok1 k (press t0) k World.init).1 (by rw [e0]; exact f1)
  exact ⟨r1, r2.trans (by rw [e0]; exact f2), r3.trans (by rw [e0]; exact f3)⟩

/-- Inside the window, also across the wrap of the 16-bit clock: a time stamp
`d < TAPPING_TERM` after `t0` has not reached the deadline `t0 + TAPPING_TERM`. -/
theorem not_expired_inside_window (t0 d term : Nat) (hd : d < term) (ht : term ≤ 32767) :
    timer_expired ((t0 + d) % 65536) ((t0 + term) % 65536) = false := by
  unfold timer_expired
  simp only [decide_eq_false_iff_not, not_lt]
  omega

/-- From the deadline on, for less than 32767 ms, the deadline counts as reached. -/
theorem expired_from_deadline (t0 d term : Nat) (h1 : term ≤ d) (h2 : d < term + 32767) :
    timer_expired ((t0 + d) % 65536) ((t0 + term) % 65536) = true := by
  unfold timer_expired
  simp only [decide_eq_true_eq]
  omega


/-- After a trigger press either no tap is pending (the press unlocked) or the
deadline is the time of the press plus the tapping term. -/
theorem press_arms (cfg : Config) (tok k t : Nat) (w : World) :
    (process_scroll_turbo cfg tok k (press t) k w).1.tapped = false ∨
    (process_scroll_turbo cfg tok k (press t) k w).1.tap_timer
      = (t + cfg.TAPPING_TERM) % 65536 := by
  by_cases hc : w.tapped = true ∧ timer_expired (press t).event.time w.tap_timer = false
  · rw [process_press_lock cfg tok k (press t) w rfl hc.1 hc.2]
    exact Or.inr (start_frame cfg tok _).2.2
  · have hw : w.tapped = false ∨ timer_expired (press t).event.time w.tap_timer = true := by
      cases h1 : w.tapped <;> cases h2 : timer_expired (press t).event.time w.tap_timer <;>
        simp_all
    cases hl : w.locked
    · rw [process_press_first cfg tok k (press t) w rfl hw hl]
      exact Or.inr (start_frame cfg tok _).2.2
    · rw [process_press_unlock cfg tok k (press t) w rfl hw hl]
      exact Or.inl (stop_frame _).2.1

/-- Where the tap window does expire: after a trigger press at `t0` that leaves
`locked = false` and its release, a second trigger press `d` ms later, with
`TAPPING_TERM ≤ d < TAPPING_TERM + 32767`, is a fresh first tap. -/
theorem fresh_tap_after_deadline (cfg : Config) (k tok1 tokr tok2 t0 t1 d n : Nat) (w : World)
    (hl : (process_scroll_turbo cfg tok1 k (press t0) k w).1.locked = false)
    (h1 : cfg.TAPPING_TERM ≤ d) (h2 : d < cfg.TAPPING_TERM + 32767) :
    let w2 := (process_scroll_turbo cfg tokr k (release t1) k
      (ticks cfg n (process_scroll_turbo cfg tok1 k (press t0) k w).1)).1
    process_scroll_turbo cfg tok2 k (press ((t0 + d) % 65536)) k w2
      = (turbo_click_start cfg tok2
          { w2 with tapped := true
                    tap_timer := ((t0 + d) % 65536 + cfg.TAPPING_TERM) % 65536 }, false) ∧
    (process_scroll_turbo cfg tok2 k (press ((t0 + d) % 65536)) k w2).1.locked = false := by
  intro w2
  obtain ⟨r1, r2, r3⟩ := release_after_ticks_frame cfg tokr k t1 n _ hl
  have hw : w2.tapped = false ∨
      timer_expired (press ((t0 + d) % 65536)).event.time w2.tap_timer = true := by
    rcases press_arms cfg tok1 k t0 w with h | h
    · exact Or.inl (r2.trans h)
    · exact Or.inr (by rw [r3, h]; exact expired_from_deadline t0 d _ h1 h2)
  have e := process_press_first cfg tok2 k (press ((t0 + d) % 65536)) w2 rfl hw r1
  refine ⟨e, ?_⟩
  rw [e]
  exact (start_frame cfg tok2 _).1.trans r1

/-! ## Expired tap window -/

/-- C11 (the code at a failing input): default build, trigger press at 10, one
tick, release at 20, and the second trigger press 40000 ms after the first, at
time stamp 40010. The deadline 210 passed long ago, yet on the 16-bit clock
`timer_expired(40010, 210)` is false, and the press sets `locked`. -/
theorem stale_tap_locks_late_press :
    defaultConfig.TAPPING_TERM ≤ 40000 ∧ 40000 < 65536 ∧
    run defaultConfig World.init [.key 5 (press 10) 5 7, .tick 0, .key 5 (release 20) 5 7]
      = some stoppedAfterHold ∧
    timer_expired ((10 + 40000) % 65536) stoppedAfterHold.tap_timer = false ∧
    (process_scroll_turbo defaultConfig 8 5 (press ((10 + 40000) % 65536)) 5
      stoppedAfterHold).1.locked = true :=
  ⟨by decide, by decide, by decide, by decide, by decide⟩

/-! ## Idempotence of stop and start -/

/-- C12: `turbo_click_stop` applied twice gives the state, host log included,
that one application gives, so the second call makes no host call; on a state
with no token registered it changes nothing. -/
theorem stop_idempotent (w : World) :
    turbo_click_stop (turbo_click_stop w) = turbo_click_stop w ∧
    (turbo_click_stop (turbo_click_stop w)).hostLog = (turbo_click_stop w).hostLog ∧
    turbo_click_stop { w with click_token := INVALID_DEFERRED_TOKEN }
      = { w with click_token := INVALID_DEFERRED_TOKEN } := by
  have h : turbo_click_stop (turbo_click_stop w) = turbo_click_stop w := by
    by_cases ht : w.click_token = INVALID_DEFERRED_TOKEN
    · simp [turbo_click_stop, ht]
    · by_cases hr : w.click_registered = 0 <;>
        simp [turbo_click_stop, ht, hr, World.call, scroll_turbo_disable]
  exact ⟨h, by rw [h], by simp [turbo_click_stop]⟩


theorem outstanding_append (log rest : List HostCall) :
    outstanding (log ++ rest) = rest.foldl outstandingStep (outstanding log) := by
  simp only [outstanding, List.foldl_append]

theorem callback_outstanding (cfg : Config) (tt : Nat) (w : World) :
    outstanding (turbo_click_callback cfg tt w).1.hostLog = outstanding w.hostLog := by
  unfold turbo_click_callback scroll_turbo_disable World.call
  dsimp only
  split_ifs <;> simp [outstanding_append, outstandingStep]

theorem start_outstanding (cfg : Config) (tok : Nat) (w : World) (h : OneRegistration w)
    (htok : tok ≠ INVALID_DEFERRED_TOKEN) : OneRegistration (turbo_click_start cfg tok w) := by
  unfold OneRegistration at h ⊢
  by_cases ht : w.click_token = INVALID_DEFERRED_TOKEN
  · rw [start_effect cfg tok w ht]
    simp [outstanding_append, outstandingStep, callback_outstanding, h, ht, htok]
  · rw [start_running cfg tok w ht]
    exact h

theorem stop_outstanding (w : World) (h : OneRegistration w) :
    OneRegistration (turbo_click_stop w) := by
  unfold OneRegistration at h ⊢
  by_cases ht : w.click_token = INVALID_DEFERRED_TOKEN
  · simpa [turbo_click_stop, ht] using h
  · by_cases hr : w.click_registered = 0 <;>
      simp [turbo_click_stop, ht, hr, World.call, scroll_turbo_disable, outstanding_append,
        outstandingStep, h]

theorem process_outstanding (cfg : Config) (tok keycode : Nat) (record : keyrecord_t)
    (turbo_click_keycode : Nat) (w : World) (h : OneRegistration w)
    (htok : tok ≠ INVALID_DEFERRED_TOKEN) :
    OneRegistration (process_scroll_turbo cfg tok keycode record turbo_click_keycode w).1 := by
  unfold process_scroll_turbo
  split_ifs
  · exact start_outstanding cfg tok _ h htok
  · exact stop_outstanding _ h
  · exact start_outstanding cfg tok _ h htok
  · exact stop_outstanding _ h
  · exact h
  · exact h

theorem apply_outstanding (cfg : Config) (w : World) (s : Step) (h : OneRegistration w)
    (ha : s.admissible w = true) : OneRegistration (s.apply cfg w) := by
  cases s with
  | key keycode record turbo_click_keycode tok =>
      exact process_outstanding cfg tok keycode record turbo_click_keycode w h
        (by simpa [Step.admissible] using ha)
  | tick tt =>
      unfold OneRegistration at h ⊢
      simp only [Step.apply]
      rw [callback_outstanding, h]
      simp only [(callback_frame cfg tt w).1]

theorem run_outstanding (cfg : Config) (steps : List Step) :
    ∀ w w2 : World, OneRegistration w → run cfg w steps = some w2 → OneRegistration w2 := by
  induction steps with
  | nil =>
      intro w w2 h hr
      simp only [run, Option.some.injEq] at hr
      exact hr ▸ h
  | cons s rest ih =>
      intro w w2 h hr
      simp only [run] at hr
      split_ifs at hr with ha
      exact ih _ _ (apply_outstanding cfg w s h ha) hr

theorem reachable_outstanding (cfg : Config) (w : World) (h : Reachable cfg w) :
    outstanding w.hostLog = if w.click_token = INVALID_DEFERRED_TOKEN then 0 else 1 := by
  obtain ⟨steps, hs⟩ := h
  exact run_outstanding cfg steps _ _ (show OneRegistration World.init from rfl) hs

/-- C13: on a state with a token registered `turbo_click_start` changes
nothing, host log included (no tick, no register or unregister, no second
`defer_exec`); with `defer_exec` returning a valid token, start twice is start
once from any state; and in every reachable state at most one callback
registration is outstanding (one while a token is held, none otherwise). -/
theorem start_idempotent (cfg : Config) (tokA tok tok2 : Nat) (w w0 w1 : World)
    (h : w.click_token ≠ INVALID_DEFERRED_TOKEN)
    (htok : tok ≠ INVALID_DEFERRED_TOKEN) (hr : Reachable cfg w1) :
    turbo_click_start cfg tokA w = w ∧
    turbo_click_start cfg tok2 (turbo_click_start cfg tok w0) = turbo_click_start cfg tok w0 ∧
    outstanding w1.hostLog ≤ 1 ∧
    outstanding w1.hostLog = (if w1.click_token = INVALID_DEFERRED_TOKEN then 0 else 1) := by
  refine ⟨start_running cfg tokA w h, ?_, ?_, reachable_outstanding cfg w1 hr⟩
  · apply start_running
    by_cases ht : w0.click_token = INVALID_DEFERRED_TOKEN
    · rw [start_effect cfg tok w0 ht]; exact htok
    · rw [start_running cfg tok w0 ht]; exact ht
  · rw [reachable_outstanding cfg w1 hr]
    split_ifs <;> omega

/-- Witness for `start_idempotent`: start on the locked state of the double tap
(token 8), start twice from the initial state with token 7, and the count of
registrations in the locked state. -/
theorem start_idempotent_witness :
    lockedByDoubleTap.click_token ≠ INVALID_DEFERRED_TOKEN ∧
    (7 : Nat) ≠ INVALID_DEFERRED_TOKEN ∧
    Reachable defaultConfig lockedByDoubleTap ∧
    turbo_click_start defaultConfig 9 lockedByDoubleTap = lockedByDoubleTap ∧
    turbo_click_start defaultConfig 9 (turbo_click_start defaultConfig 7 World.init)
      = turbo_click_start defaultConfig 7 World.init ∧
    outstanding lockedByDoubleTap.hostLog ≤ 1 ∧
    outstanding lockedByDoubleTap.hostLog
      = (if lockedByDoubleTap.click_token = INVALID_DEFERRED_TOKEN then 0 else 1) :=
  ⟨by decide, by decide,
    ⟨[.key 5 (press 10) 5 7, .key 5 (release 20) 5 7, .key 5 (press 30) 5 8], by decide⟩,
    start_idempotent defaultConfig 9 7 9 lockedByDoubleTap World.init lockedByDoubleTap
      (by decide) (by decide)
      ⟨[.key 5 (press 10) 5 7, .key 5 (release 20) 5 7, .key 5 (press 30) 5 8], by decide⟩⟩

/-! ## Events on other keys -/

/-- C14: an event on a key other than the trigger returns true and changes
nothing but `tapped`, which becomes false: `locked`, `tap_timer`, `click_token`,
`click_registered` and the host log stay as they were. -/
theorem other_key_only_clears_tapped (cfg : Config) (tok keycode : Nat)
    (record : keyrecord_t) (turbo_click_keycode : Nat) (w : World)
    (hk : keycode ≠ turbo_click_keycode) :
    process_scroll_turbo cfg tok keycode record turbo_click_keycode w
      = ({ w with tapped := false }, true) ∧
    (process_scroll_turbo cfg tok keycode record turbo_click_keycode w).1.tapped = false ∧
    (process_scroll_turbo cfg tok keycode record turbo_click_keycode w).1.locked = w.locked ∧
    (process_scroll_turbo cfg tok keycode record turbo_click_keycode w).1.click_token
      = w.click_token ∧
    (process_scroll_turbo cfg tok keycode record turbo_click_keycode w).1.click_registered
      = w.click_registered ∧
    (process_scroll_turbo cfg tok keycode record turbo_click_keycode w).1.hostLog
      = w.hostLog := by
  rw [process_other cfg tok keycode record turbo_click_keycode w hk]
  exact ⟨rfl, rfl, rfl, rfl, rfl, rfl⟩

/-- Witness for `other_key_only_clears_tapped`: a press of key 6 at time 25 on
the locked state of the double tap, trigger key 5. -/
theorem other_key_only_clears_tapped_witness :
    (6 : Nat) ≠ 5 ∧
    process_scroll_turbo defaultConfig 9 6 (press 25) 5 lockedByDoubleTap
      = ({ lockedByDoubleTap with tapped := false }, true) :=
  ⟨by decide,
    (other_key_only_clears_tapped defaultConfig 9 6 (press 25) 5 lockedByDoubleTap
      (by decide)).1⟩


/-! ## The default arm of the tick -/

theorem callback_fault (cfg : Config) (tt : Nat) (w : World)
    (h0 : w.click_registered ≠ off) (h1 : w.click_registered ≠ up)
    (h2 : w.click_registered ≠ down) :
    turbo_click_callback cfg tt w =
      ({ w with click_registered := off
                hostLog := w.hostLog ++ [.unregister_code16 .KC_MS_WH_UP,
                  .unregister_code16 .KC_MS_WH_DOWN] },
        cfg.MOUSE_TURBO_CLICK_PERIOD / 2) := by
  simp [turbo_click_callback, h0, h1, h2, scroll_turbo_disable, World.call]

/-- C15 (as stated, refuted): with `click_registered = 3` and token 7
registered, the tick returns the delay 100, not 0, and leaves `click_token = 7`:
the callback stays scheduled, and the next tick registers `KC_MS_WH_UP` again. -/
theorem fault_tick_cancels_counterexample :
    faultyPhase.click_registered ≠ off ∧ faultyPhase.click_registered ≠ up ∧
    faultyPhase.click_registered ≠ down ∧
    (turbo_click_callback defaultConfig 0 faultyPhase).2 = 100 ∧
    (turbo_click_callback defaultConfig 0 faultyPhase).2 ≠ 0 ∧
    (turbo_click_callback defaultConfig 0 faultyPhase).1.click_token = 7 ∧
    (turbo_click_callback defaultConfig 0 faultyPhase).1.click_token
      ≠ INVALID_DEFERRED_TOKEN ∧
    (turbo_click_callback defaultConfig 0
      (turbo_click_callback defaultConfig 0 faultyPhase).1).1.click_registered = up :=
  ⟨by decide, by decide, by decide, by decide, by decide, by decide, by decide, by decide⟩

/-- C15 (amended): when `click_registered` is none of `off`, `up`, `down`, the
tick releases both scroll keys (`unregister_code16` of `KC_MS_WH_UP`, then of
`KC_MS_WH_DOWN`), sets `click_registered = off`, leaves `click_token` as it
was and returns `MOUSE_TURBO_CLICK_PERIOD / 2`; neither key is held by the
host afterwards. -/
theorem fault_tick_resets (cfg : Config) (tt : Nat) (w : World)
    (h0 : w.click_registered ≠ off) (h1 : w.click_registered ≠ up)
    (h2 : w.click_registered ≠ down) :
    turbo_click_callback cfg tt w =
      ({ w with click_registered := off
                hostLog := w.hostLog ++ [.unregister_code16 .KC_MS_WH_UP,
                  .unregister_code16 .KC_MS_WH_DOWN] },
        cfg.MOUSE_TURBO_CLICK_PERIOD / 2) ∧
    (turbo_click_callback cfg tt w).1.click_registered = off ∧
    (turbo_click_callback cfg tt w).1.click_token = w.click_token ∧
    (turbo_click_callback cfg tt w).2 = cfg.MOUSE_TURBO_CLICK_PERIOD / 2 ∧
    hostHeld .KC_MS_WH_UP (turbo_click_callback cfg tt w).1.hostLog = false ∧
    hostHeld .KC_MS_WH_DOWN (turbo_click_callback cfg tt w).1.hostLog = false := by
  have e := callback_fault cfg tt w h0 h1 h2
  refine ⟨e, by rw [e], by rw [e], rfl, ?_, ?_⟩ <;>
    (rw [e]; simp [hostHeld_append, heldStep])

/-- Witness for `fault_tick_resets`: the state with `click_registered = 3`. -/
theorem fault_tick_resets_witness :
    faultyPhase.click_registered ≠ off ∧ faultyPhase.click_registered ≠ up ∧
    faultyPhase.click_registered ≠ down ∧
    (turbo_click_callback defaultConfig 0 faultyPhase).1.click_registered = off ∧
    hostHeld .KC_MS_WH_UP (turbo_click_callback defaultConfig 0 faultyPhase).1.hostLog
      = false ∧
    hostHeld .KC_MS_WH_DOWN (turbo_click_callback defaultConfig 0 faultyPhase).1.hostLog
      = false :=
  ⟨by decide, by decide, by decide,
    (fault_tick_resets defaultConfig 0 faultyPhase (by decide) (by decide) (by decide)).2.1,
    (fault_tick_resets defaultConfig 0 faultyPhase (by decide) (by decide) (by decide)).2.2.2.2.1,
    (fault_tick_resets defaultConfig 0 faultyPhase (by decide) (by decide)
      (by decide)).2.2.2.2.2⟩

/-! ## Lock check before unlock check -/

/-- What a tick adds to the host log: no `cancel_deferred_exec`. -/
theorem callback_log (cfg : Config) (tt : Nat) (w : World) :
    ∃ ext, (turbo_click_callback cfg tt w).1.hostLog = w.hostLog ++ ext ∧
      ∀ c, HostCall.cancel_deferred_exec c ∉ ext := by
  unfold turbo_click_callback scroll_turbo_disable World.call
  dsimp only
  split_ifs
  · exact ⟨[.unregister_code16 .KC_MS_WH_UP, .register_code16 .KC_MS_WH_DOWN], by simp, by simp⟩
  · exact ⟨[.unregister_code16 .KC_MS_WH_DOWN], by simp, by simp⟩
  · exact ⟨[.register_code16 .KC_MS_WH_UP], by simp, by simp⟩
  · exact ⟨[.unregister_code16 .KC_MS_WH_UP, .unregister_code16 .KC_MS_WH_DOWN],
      by simp, by simp⟩

/-- What `turbo_click_start` adds to the host log: no `cancel_deferred_exec`. -/
theorem start_log (cfg : Config) (tok : Nat) (w : World) :
    ∃ rest, (turbo_click_start cfg tok w).hostLog = w.hostLog ++ rest ∧
      ∀ c, HostCall.cancel_deferred_exec c ∉ rest := by
  by_cases ht : w.click_token = INVALID_DEFERRED_TOKEN
  · obtain ⟨ext, he, hn⟩ := callback_log cfg 0 w
    refine ⟨ext ++ [.defer_exec (cfg.MOUSE_TURBO_CLICK_PERIOD / 2)], ?_, ?_⟩
    · rw [start_effect cfg tok w ht]
      simp [he]
    · intro c hc
      simp only [List.mem_append, List.mem_singleton] at hc
      rcases hc with hc | hc
      · exact hn c hc
      · cases hc
  · exact ⟨[], by rw [start_running cfg tok w ht]; simp, by simp⟩

theorem start_token_valid (cfg : Config) (tok : Nat) (w : World)
    (htok : tok ≠ INVALID_DEFERRED_TOKEN) :
    (turbo_click_start cfg tok w).click_token ≠ INVALID_DEFERRED_TOKEN := by
  by_cases ht : w.click_token = INVALID_DEFERRED_TOKEN
  · rw [start_effect cfg tok w ht]; exact htok
  · rw [start_running cfg tok w ht]; exact ht

/-- C16: with `tapped = true`, a trigger press whose time stamp is strictly
before the pending deadline runs the lock branch whatever `locked` was: the
result is `turbo_click_start` on the state with `locked = true`,
`tapped = true` and `tap_timer = (t + TAPPING_TERM) mod 2^16`; the driver is
running, no `cancel_deferred_exec` is made, and the call returns false. For
every state and trigger press, `locked` ends false only if no tap was pending
or the deadline had expired. -/
theorem lock_check_precedes_unlock (cfg : Config) (tok tokB k t2 : Nat)
    (record : keyrecord_t) (w w2 : World)
    (hp : record.event.pressed = true) (ht : w.tapped = true)
    (he : timer_expired record.event.time w.tap_timer = false)
    (htok : tok ≠ INVALID_DEFERRED_TOKEN) :
    process_scroll_turbo cfg tok k record k w
      = (turbo_click_start cfg tok
          { w with locked := true, tapped := true,
                   tap_timer := (record.event.time + cfg.TAPPING_TERM) % 65536 }, false) ∧
    (process_scroll_turbo cfg tok k record k w).1.locked = true ∧
    (process_scroll_turbo cfg tok k record k w).1.tapped = true ∧
    (process_scroll_turbo cfg tok k record k w).1.tap_timer
      = (record.event.time + cfg.TAPPING_TERM) % 65536 ∧
    (process_scroll_turbo cfg tok k record k w).1.click_token ≠ INVALID_DEFERRED_TOKEN ∧
    (∃ rest, (process_scroll_turbo cfg tok k record k w).1.hostLog = w.hostLog ++ rest ∧
      ∀ c, HostCall.cancel_deferred_exec c ∉ rest) ∧
    (process_scroll_turbo cfg tok k record k w).2 = false ∧
    ((process_scroll_turbo cfg tokB k (press t2) k w2).1.locked = true ∨
      w2.tapped = false ∨ timer_expired t2 w2.tap_timer = true) := by
  have e := process_press_lock cfg tok k record w hp ht he
  obtain ⟨f1, f2, f3⟩ := start_frame cfg tok
    { w with locked := true, tapped := true,
             tap_timer := (record.event.time + cfg.TAPPING_TERM) % 65536 }
  refine ⟨e, by rw [e]; exact f1, by rw [e]; exact f2, by rw [e]; exact f3,
    by rw [e]; exact start_token_valid cfg tok _ htok, by rw [e]; exact start_log cfg tok _,
    by rw [e], ?_⟩
  cases h1 : w2.tapped
  · exact Or.inr (Or.inl rfl)
  · cases h2 : timer_expired t2 w2.tap_timer
    · left
      rw [process_press_lock cfg tokB k (press t2) w2 rfl h1 h2]
      exact (start_frame cfg tokB _).1
    · exact Or.inr (Or.inr rfl)

/-- Witness for `lock_check_precedes_unlock`: the locked state of the double
tap (deadline 230) pressed again at time 50. -/
theorem lock_check_precedes_unlock_witness :
    (press 50).event.pressed = true ∧ lockedByDoubleTap.tapped = true ∧
    timer_expired (press 50).event.time lockedByDoubleTap.tap_timer = false ∧
    (9 : Nat) ≠ INVALID_DEFERRED_TOKEN ∧
    (process_scroll_turbo defaultConfig 9 5 (press 50) 5 lockedByDoubleTap).1.locked = true ∧
    (process_scroll_turbo defaultConfig 9 5 (press 50) 5 lockedByDoubleTap).1.tap_timer
      = ((press 50).event.time + defaultConfig.TAPPING_TERM) % 65536 ∧
    (process_scroll_turbo defaultConfig 9 5 (press 50) 5 lockedByDoubleTap).1.click_token
      ≠ INVALID_DEFERRED_TOKEN :=
  ⟨by decide, by decide, by decide, by decide,
    (lock_check_precedes_unlock defaultConfig 9 9 5 50 (press 50) lockedByDoubleTap
      World.init (by decide) (by decide) (by decide) (by decide)).2.1,
    (lock_check_precedes_unlock defaultConfig 9 9 5 50 (press 50) lockedByDoubleTap
      World.init (by decide) (by decide) (by decide) (by decide)).2.2.2.1,
    (lock_check_precedes_unlock defaultConfig 9 9 5 50 (press 50) lockedByDoubleTap
      World.init (by decide) (by decide) (by decide) (by decide)).2.2.2.2.1⟩


/-! ## Where the tap window starts, and the 16-bit clock -/

/-- After the first tap from the initial state, a trigger press whose time
stamp has not reached the deadline of that tap sets `locked`. -/
theorem second_press_locks (cfg : Config) (k tok1 tokr tok2 t0 t1 t2 n : Nat)
    (he : timer_expired t2 ((t0 + cfg.TAPPING_TERM) % 65536) = false) :
    (process_scroll_turbo cfg tok2 k (press t2) k
      (process_scroll_turbo cfg tokr k (release t1) k
        (ticks cfg n (process_scroll_turbo cfg tok1 k (press t0) k World.init).1)).1).1.locked
      = true := by
  obtain ⟨_, a2, a3⟩ := after_first_tap cfg tok1 tokr k t0 t1 n
  rw [process_press_lock cfg tok2 k (press t2) _ rfl a2 (by rw [a3]; exact he)]
  exact (start_frame cfg tok2 _).1

/-- After the first tap from the initial state, a trigger press whose time
stamp has reached the deadline of that tap leaves `locked = false`. -/
theorem second_press_fresh (cfg : Config) (k tok1 tokr tok2 t0 t1 t2 n : Nat)
    (he : timer_expired t2 ((t0 + cfg.TAPPING_TERM) % 65536) = true) :
    (process_scroll_turbo cfg tok2 k (press t2) k
      (process_scroll_turbo cfg tokr k (release t1) k
        (ticks cfg n (process_scroll_turbo cfg tok1 k (press t0) k World.init).1)).1).1.locked
      = false := by
  obtain ⟨a1, _, a3⟩ := after_first_tap cfg tok1 tokr k t0 t1 n
  rw [process_press_first cfg tok2 k (press t2) _ rfl (Or.inr (by rw [a3]; exact he)) a1]
  exact (start_frame cfg tok2 _).1.trans a1

/-- C17 (as stated, refuted): default build, trigger press at 0, release at
1000, second press at 1100, which is 100 ms after the release and so within
the tapping term 200 of it; the deadline 200 set by the first press has
passed and the second press leaves `locked = false`. -/
theorem window_from_release_counterexample :
    1000 ≤ 1100 ∧ 1100 - 1000 < defaultConfig.TAPPING_TERM ∧
    (process_scroll_turbo defaultConfig 8 5 (press 1100) 5
      (process_scroll_turbo defaultConfig 0 5 (release 1000) 5
        (process_scroll_turbo defaultConfig 7 5 (press 0) 5 World.init).1).1).1.locked
      = false :=
  ⟨by decide, by decide, by decide⟩

/-- C17 (amended): the window is measured from the first press. From the
initial state, trigger press at `t0`, any ticks, trigger release at any `t1`,
second trigger press at `t2` with `0 ≤ t2 - t0 < TAPPING_TERM` (16-bit time
stamps, `TAPPING_TERM ≤ 32767`): the second press sets `locked = true`. -/
theorem window_from_press (cfg : Config) (k tok1 tokr tok2 t0 t1 t2 n : Nat)
    (h0 : t0 ≤ t2) (h1 : t2 - t0 < cfg.TAPPING_TERM) (h2 : cfg.TAPPING_TERM ≤ 32767)
    (h3 : t2 < 65536) :
    (process_scroll_turbo cfg tok2 k (press t2) k
      (process_scroll_turbo cfg tokr k (release t1) k
        (ticks cfg n (process_scroll_turbo cfg tok1 k (press t0) k World.init).1)).1).1.locked
      = true := by
  apply second_press_locks
  have e : t2 = (t0 + (t2 - t0)) % 65536 := by omega
  rw [e]
  exact not_expired_inside_window t0 (t2 - t0) _ h1 h2

/-- Witness for `window_from_press`: press at 0, release at 150, second press
at 190, default build. -/
theorem window_from_press_witness :
    0 ≤ 190 ∧ 190 - 0 < defaultConfig.TAPPING_TERM ∧ defaultConfig.TAPPING_TERM ≤ 32767 ∧
    190 < 65536 ∧
    (process_scroll_turbo defaultConfig 8 5 (press 190) 5
      (process_scroll_turbo defaultConfig 0 5 (release 150) 5
        (ticks defaultConfig 1
          (process_scroll_turbo defaultConfig 7 5 (press 0) 5 World.init).1)).1).1.locked
      = true :=
  ⟨by decide, by decide, by decide, by decide,
    window_from_press defaultConfig 5 7 0 8 0 150 190 1 (by decide) (by decide) (by decide)
      (by decide)⟩

/-- C20: with `tap_timer = (t0 + TAPPING_TERM) mod 2^16` and the 16-bit
`timer_expired`, for `TAPPING_TERM ≤ 32767` and `d < TAPPING_TERM` (so that
`0 < TAPPING_TERM`), after
the first tap at `t0` from the initial state a second trigger press at
`(t0 + d) mod 2^16` sets `locked = true`, whether or not a sum wraps; a
second press at exactly `(t0 + TAPPING_TERM) mod 2^16` leaves `locked = false`. -/
theorem window_across_wrap (cfg : Config) (k tok1 tokr tok2 t0 t1 d n : Nat)
    (hmax : cfg.TAPPING_TERM ≤ 32767) (hd : d < cfg.TAPPING_TERM) :
    (process_scroll_turbo cfg tok2 k (press ((t0 + d) % 65536)) k
      (process_scroll_turbo cfg tokr k (release t1) k
        (ticks cfg n (process_scroll_turbo cfg tok1 k (press t0) k World.init).1)).1).1.locked
      = true ∧
    (process_scroll_turbo cfg tok2 k (press ((t0 + cfg.TAPPING_TERM) % 65536)) k
      (process_scroll_turbo cfg tokr k (release t1) k
        (ticks cfg n (process_scroll_turbo cfg tok1 k (press t0) k World.init).1)).1).1.locked
      = false :=
  ⟨second_press_locks cfg k tok1 tokr tok2 t0 t1 _ n
      (not_expired_inside_window t0 d _ hd hmax),
    second_press_fresh cfg k tok1 tokr tok2 t0 t1 _ n
      (expired_from_deadline t0 _ _ (Nat.le_refl _) (by omega))⟩

/-- Witness for `window_across_wrap`: first press at 65500, so that the
deadline wraps to 164; the second press 100 ms later, at time stamp 64, locks,
and a second press at 164 does not. -/
theorem window_across_wrap_witness :
    0 < defaultConfig.TAPPING_TERM ∧ defaultConfig.TAPPING_TERM ≤ 32767 ∧
    100 < defaultConfig.TAPPING_TERM ∧
    (65500 + 100) % 65536 = 64 ∧ (65500 + defaultConfig.TAPPING_TERM) % 65536 = 164 ∧
    (process_scroll_turbo defaultConfig 8 5 (press ((65500 + 100) % 65536)) 5
      (process_scroll_turbo defaultConfig 0 5 (release 65530) 5
        (ticks defaultConfig 0
          (process_scroll_turbo defaultConfig 7 5 (press 65500) 5 World.init).1)).1).1.locked
      = true ∧
    (process_scroll_turbo defaultConfig 8 5
      (press ((65500 + defaultConfig.TAPPING_TERM) % 65536)) 5
      (process_scroll_turbo defaultConfig 0 5 (release 65530) 5
        (ticks defaultConfig 0
          (process_scroll_turbo defaultConfig 7 5 (press 65500) 5 World.init).1)).1).1.locked
      = false :=
  ⟨by decide, by decide, by decide, by decide, by decide,
    window_across_wrap defaultConfig 5 7 0 8 65500 65530 100 0 (by decide) (by decide)⟩

/-! ## Host key state -/

/-- C18: in every reachable state with `click_token` invalid,
`click_registered` is `off` and the host holds neither scroll key; and after
`turbo_click_stop` on any reachable state the token is invalid,
`click_registered` is `off` and neither scroll key is held. -/
theorem stopped_driver_holds_nothing (cfg : Config) (w w2 : World)
    (hr : Reachable cfg w) (ht : w.click_token = INVALID_DEFERRED_TOKEN)
    (hr2 : Reachable cfg w2) :
    w.click_registered = off ∧
    hostHeld .KC_MS_WH_UP w.hostLog = false ∧
    hostHeld .KC_MS_WH_DOWN w.hostLog = false ∧
    (turbo_click_stop w2).click_token = INVALID_DEFERRED_TOKEN ∧
    (turbo_click_stop w2).click_registered = off ∧
    hostHeld .KC_MS_WH_UP (turbo_click_stop w2).hostLog = false ∧
    hostHeld .KC_MS_WH_DOWN (turbo_click_stop w2).hostLog = false := by
  have hi := inv_reachable cfg w hr
  have hi2 := inv_reachable cfg w2 hr2
  have ho := hi.stopped_off ht
  obtain ⟨s1, s2, s3, s4, _, _, _⟩ := stop_effect w2 hi2.stopped_off hi2.held_up hi2.held_down
  refine ⟨ho, ?_, ?_, s1, s2, s3, s4⟩
  · rw [hi.held_up, ho]; decide
  · rw [hi.held_down, ho]; decide

/-- Witness for `stopped_driver_holds_nothing`: the state after press, tick,
release, and `turbo_click_stop` on the running state of the idle phase. -/
theorem stopped_driver_holds_nothing_witness :
    Reachable defaultConfig stoppedAfterHold ∧
    stoppedAfterHold.click_token = INVALID_DEFERRED_TOKEN ∧
    Reachable defaultConfig idlePhaseRunning ∧
    stoppedAfterHold.click_registered = off ∧
    hostHeld .KC_MS_WH_UP stoppedAfterHold.hostLog = false ∧
    hostHeld .KC_MS_WH_DOWN stoppedAfterHold.hostLog = false ∧
    (turbo_click_stop idlePhaseRunning).click_token = INVALID_DEFERRED_TOKEN ∧
    (turbo_click_stop idlePhaseRunning).click_registered = off ∧
    hostHeld .KC_MS_WH_UP (turbo_click_stop idlePhaseRunning).hostLog = false ∧
    hostHeld .KC_MS_WH_DOWN (turbo_click_stop idlePhaseRunning).hostLog = false :=
  ⟨⟨[.key 5 (press 10) 5 7, .tick 0, .key 5 (release 20) 5 7], by decide⟩, by decide,
    ⟨[.key 5 (press 10) 5 7, .tick 0, .tick 0], by decide⟩,
    stopped_driver_holds_nothing defaultConfig stoppedAfterHold idlePhaseRunning
      ⟨[.key 5 (press 10) 5 7, .tick 0, .key 5 (release 20) 5 7], by decide⟩ (by decide)
      ⟨[.key 5 (press 10) 5 7, .tick 0, .tick 0], by decide⟩⟩


/-- What a tick adds to the host log in each of the three phases. -/
theorem callback_log_phase (cfg : Config) (tt : Nat) (w : World) :
    (w.click_registered = off →
      (turbo_click_callback cfg tt w).1.hostLog
        = w.hostLog ++ [.register_code16 .KC_MS_WH_UP]) ∧
    (w.click_registered = up →
      (turbo_click_callback cfg tt w).1.hostLog
        = w.hostLog ++ [.unregister_code16 .KC_MS_WH_UP, .register_code16 .KC_MS_WH_DOWN]) ∧
    (w.click_registered = down →
      (turbo_click_callback cfg tt w).1.hostLog
        = w.hostLog ++ [.unregister_code16 .KC_MS_WH_DOWN]) := by
  refine ⟨fun h => ?_, fun h => ?_, fun h => ?_⟩ <;>
    simp [turbo_click_callback, World.call, h, off, up, down]

/-- C19: with the keys held by the host computed from the log of
`register_code16` / `unregister_code16` calls, starting from none, in every
reachable state `KC_MS_WH_UP` is held iff `click_registered = up` and
`KC_MS_WH_DOWN` is held iff `click_registered = down`; the two are never held
together; and a tick makes no `register_code16` of a key that is held. -/
theorem host_keys_match_phase (cfg : Config) (w : World) (hr : Reachable cfg w) :
    (hostHeld .KC_MS_WH_UP w.hostLog = true ↔ w.click_registered = up) ∧
    (hostHeld .KC_MS_WH_DOWN w.hostLog = true ↔ w.click_registered = down) ∧
    ¬ (hostHeld .KC_MS_WH_UP w.hostLog = true ∧ hostHeld .KC_MS_WH_DOWN w.hostLog = true) ∧
    (∀ (k : ScrollKey) (tt : Nat) (ext : List HostCall),
      hostHeld k w.hostLog = true →
      (turbo_click_callback cfg tt w).1.hostLog = w.hostLog ++ ext →
      HostCall.register_code16 k ∉ ext) := by
  have hi := inv_reachable cfg w hr
  have hu : hostHeld .KC_MS_WH_UP w.hostLog = true ↔ w.click_registered = up := by
    rw [hi.held_up]; simp
  have hd : hostHeld .KC_MS_WH_DOWN w.hostLog = true ↔ w.click_registered = down := by
    rw [hi.held_down]; simp
  refine ⟨hu, hd, ?_, ?_⟩
  · rintro ⟨a, b⟩
    have h1 := hu.mp a
    have h2 := hd.mp b
    rw [h1] at h2
    exact absurd h2 (by decide)
  · intro k tt ext hk hext
    obtain ⟨p0, p1, p2⟩ := callback_log_phase cfg tt w
    have hreg : w.click_registered = up ∨ w.click_registered = down := by
      cases k
      · exact Or.inl (hu.mp hk)
      · exact Or.inr (hd.mp hk)
    rcases hreg with h | h
    · have hk2 : k = .KC_MS_WH_UP := by
        cases k
        · rfl
        · have := hd.mp hk
          rw [h] at this
          exact absurd this (by decide)
      rw [p1 h] at hext
      have := List.append_cancel_left hext
      subst this
      subst hk2
      simp
    · rw [p2 h] at hext
      have := List.append_cancel_left hext
      subst this
      simp

/-- Witness for `host_keys_match_phase`: the locked state of the double tap,
where `KC_MS_WH_UP` is held and `click_registered = up`. -/
theorem host_keys_match_phase_witness :
    Reachable defaultConfig lockedByDoubleTap ∧
    (hostHeld .KC_MS_WH_UP lockedByDoubleTap.hostLog = true
      ↔ lockedByDoubleTap.click_registered = up) ∧
    hostHeld .KC_MS_WH_UP lockedByDoubleTap.hostLog = true ∧
    (hostHeld .KC_MS_WH_DOWN lockedByDoubleTap.hostLog = true
      ↔ lockedByDoubleTap.click_registered = down) ∧
    hostHeld .KC_MS_WH_DOWN lockedByDoubleTap.hostLog = false :=
  ⟨⟨[.key 5 (press 10) 5 7, .key 5 (release 20) 5 7, .key 5 (press 30) 5 8], by decide⟩,
    (host_keys_match_phase defaultConfig lockedByDoubleTap
      ⟨[.key 5 (press 10) 5 7, .key 5 (release 20) 5 7, .key 5 (press 30) 5 8],
        by decide⟩).1,
    by decide,
    (host_keys_match_phase defaultConfig lockedByDoubleTap
      ⟨[.key 5 (press 10) 5 7, .key 5 (release 20) 5 7, .key 5 (press 30) 5 8],
        by decide⟩).2.1,
    by decide⟩

end ScrollTurbo
